import Mathlib

/-!
Shallow embedding of the `airbus-systems` A320 electrical-distribution model.

Source files embedded:
* `src/lib.rs` — `PowerSource`, `Current`, `Contactor`, `Powerable::powered_by`,
  `EngineGenerator`, `ApuGenerator`, `ExternalPowerSource`, `ElectricalBus`.
* `src/shared/mod.rs` — `UpdateContext`, `DelayedTrueLogicGate`, `Engine`.
* `src/a320/mod.rs` — `A320ElectricalCircuit` (the update function is the heart),
  `A320ElectricalOverheadPanel`, `A320HydraulicCircuit`.

The repository's `electrical` and `overhead` modules are referenced by
`src/a320/mod.rs` but their source is not present; the pieces that only exist
there (bus/TR fail flags, `TransformerRectifier`, `Battery`, `EmergencyGenerator`,
push buttons, `or_powered_by`, `is_powered`/`is_unpowered`/`source`) are modelled
from the specification and are marked `Modelled from the spec:` below.

Machine floats (`f32` ratios, volts, amps, durations) are embedded as exact
rationals `ℚ`; the embedded logic only adds and compares these quantities.
-/

namespace AirbusSys

/-- Power provenance tag. `none`, `engineGenerator`, `apuGenerator` and `external`
are from `src/lib.rs`; `emergencyGenerator` and `battery` are modelled from the
spec (§3, data model of the absent `electrical` module). -/
inductive PowerSource where
  | none
  | engineGenerator (n : Nat)
  | apuGenerator
  | external
  | emergencyGenerator
  | battery (n : Nat)
deriving DecidableEq, Repr

/-- A type of electric current (`Current` in `src/lib.rs`). -/
inductive Current where
  | alternating (source : PowerSource) (frequency volts amps : ℚ)
  | direct (source : PowerSource) (volts amps : ℚ)
  | none
deriving DecidableEq, Repr

/-- `Current::is_alternating` from `src/lib.rs`. -/
def Current.is_alternating : Current → Bool
  | .alternating _ _ _ _ => true
  | _ => false

/-- `Current::is_direct` from `src/lib.rs`. -/
def Current.is_direct : Current → Bool
  | .direct _ _ _ => true
  | _ => false

/-- `Current::is_none` from `src/lib.rs`. -/
def Current.is_none : Current → Bool
  | .none => true
  | _ => false

/-- Modelled from the spec: §3 `is_powered` (not `None`); the predicate lives in
the absent `electrical` module. -/
def Current.is_powered (c : Current) : Bool := !c.is_none

/-- Modelled from the spec: §3 `is_unpowered` (`None`); from the absent
`electrical` module. -/
def Current.is_unpowered (c : Current) : Bool := c.is_none

/-- `Current::get_source`, called `source()` by the `a320` module; returns the
provenance tag, `None` for unpowered current (`src/lib.rs`). -/
def Current.source : Current → PowerSource
  | .alternating s _ _ _ => s
  | .direct s _ _ => s
  | .none => PowerSource.none

/-- A current whose provenance is neither the APU generator nor external
power; used to state the AC-side priority claim. -/
def okSource (c : Current) : Prop :=
  c.source ≠ PowerSource.apuGenerator ∧ c.source ≠ PowerSource.external

/-- State of a contactor (`ContactorState` in `src/lib.rs`). -/
inductive ContactorState where
  | Open
  | Closed
deriving DecidableEq, Repr

/-- A contactor in an electrical power circuit (`Contactor` in `src/lib.rs`;
the `a320` module's constructor also records an id string). -/
structure Contactor where
  id : String
  state : ContactorState
  input : Current
deriving DecidableEq, Repr

/-- `Contactor::new`: starts `Open` with no input. -/
def Contactor.new (id : String) : Contactor :=
  { id := id, state := ContactorState.Open, input := Current.none }

/-- `Contactor::toggle` from `src/lib.rs` (literal translation of the match). -/
def Contactor.toggle (c : Contactor) (should_be_closed : Bool) : Contactor :=
  { c with
    state :=
      match c.state, should_be_closed with
      | ContactorState.Open, true => ContactorState.Closed
      | ContactorState.Closed, false => ContactorState.Open
      | s, _ => s }

/-- `Powerable::set_input` for `Contactor`. -/
def Contactor.set_input (c : Contactor) (current : Current) : Contactor :=
  { c with input := current }

/-- `PowerConductor::output` for `Contactor`: the input when closed, else none. -/
def Contactor.output (c : Contactor) : Current :=
  match c.state with
  | ContactorState.Closed => c.input
  | ContactorState.Open => Current.none

/-- Feeder resolution of `Powerable::powered_by` (`src/lib.rs` lines 45-57):
the first source output that is not `Current::None`, or `Current::None` when
there is none. The node's input is set to this value. -/
def firstPowered : List Current → Current
  | [] => Current.none
  | c :: rest =>
      match c with
      | Current.none => firstPowered rest
      | c => c

/-- Modelled from the spec: §4.5 `or_powered_by` of the absent `electrical`
module appends candidates after a prior `powered_by`; with first-wins
resolution this replaces the input only when the input so far is unpowered. -/
def orPowered (input : Current) (sources : List Current) : Current :=
  if input.is_unpowered then firstPowered sources else input

/-- Modelled from the spec: §3/§4.2 — the bus of the absent `electrical` module
carries a fail flag (`fail()`/`normal()`); the `ElectricalBus` of `src/lib.rs`
is the same latch without the flag. -/
structure ElectricalBus where
  input : Current
  failed : Bool
deriving DecidableEq, Repr

/-- `ElectricalBus::new`: unpowered, not failed. -/
def ElectricalBus.new : ElectricalBus := { input := Current.none, failed := false }

/-- `Powerable::set_input` for `ElectricalBus`. -/
def ElectricalBus.set_input (b : ElectricalBus) (current : Current) : ElectricalBus :=
  { b with input := current }

/-- Modelled from the spec: §4.2 — output is `None` when failed, else the input. -/
def ElectricalBus.output (b : ElectricalBus) : Current :=
  if b.failed then Current.none else b.input

/-- Modelled from the spec: §4.7 failure injection `fail()`. -/
def ElectricalBus.fail (b : ElectricalBus) : ElectricalBus := { b with failed := true }

/-- Modelled from the spec: §4.7 failure injection `normal()`. -/
def ElectricalBus.normal (b : ElectricalBus) : ElectricalBus := { b with failed := false }

/-- Engine state (`Engine` in `src/shared/mod.rs`): the N2 ratio in percent. -/
structure Engine where
  n2 : ℚ
deriving DecidableEq, Repr

/-- `EngineGenerator::ENGINE_N2_POWER_OUTPUT_THRESHOLD` (57.5 %); written as
`mkRat 115 2` so the kernel can evaluate comparisons, and proved equal to
`57.5` below. -/
def engineN2PowerOutputThreshold : ℚ := mkRat 115 2

/-- Nominal generator output used throughout `src/lib.rs`: 400 Hz, 115 V,
782.60 A; the amperage is written `mkRat 7826 10` for kernel evaluation and
proved equal to `782.60` below. -/
def nominalAlternating (source : PowerSource) : Current :=
  Current.alternating source 400 115 (mkRat 7826 10)

/-- An engine driven generator (`EngineGenerator` in `src/lib.rs`). -/
structure EngineGenerator where
  number : Nat
  output : Current
deriving DecidableEq, Repr

/-- `EngineGenerator::new`. -/
def EngineGenerator.new (number : Nat) : EngineGenerator :=
  { number := number, output := Current.none }

/-- On/off pushbutton of the overhead panel. Modelled from the spec: §3 the
`overhead` module is absent; buttons are two-state dumb latches (fault
indication is out of scope). -/
inductive OnOffPushButton where
  | On
  | Off
deriving DecidableEq, Repr

/-- Button observation `is_on`. -/
def OnOffPushButton.is_on : OnOffPushButton → Bool
  | .On => true
  | .Off => false

/-- Button observation `is_off`. -/
def OnOffPushButton.is_off : OnOffPushButton → Bool
  | .On => false
  | .Off => true

/-- Two-state NORM/ALTN pushbutton (`AC ESS FEED`). Modelled from the spec: §3. -/
inductive NormalAltnPushButton where
  | Normal
  | Altn
deriving DecidableEq, Repr

/-- Button observation `is_normal`. -/
def NormalAltnPushButton.is_normal : NormalAltnPushButton → Bool
  | .Normal => true
  | .Altn => false

/-- Button observation `is_altn`. -/
def NormalAltnPushButton.is_altn : NormalAltnPushButton → Bool
  | .Normal => false
  | .Altn => true

/-- `EngineGenerator::update` (`src/lib.rs` lines 165-172): output is nominal
alternating current tagged `EngineGenerator(number)` precisely when
`engine.n2 > 57.5 %`. The `a320` module passes the overhead `IDG n` button to
this update; per spec §4.4/§9 the generator output is computed without
consulting any pushbutton, so the button argument is ignored (exactly as in
the one-argument `src/lib.rs` version of this function). -/
def EngineGenerator.update (g : EngineGenerator) (engine : Engine)
    (_idg_push_button : OnOffPushButton) : EngineGenerator :=
  if engineN2PowerOutputThreshold < engine.n2 then
    { g with output := nominalAlternating (PowerSource.engineGenerator g.number) }
  else
    { g with output := Current.none }

/-- Auxiliary power unit state (`AuxiliaryPowerUnit` in `src/lib.rs`). -/
structure AuxiliaryPowerUnit where
  speed : ℚ
deriving DecidableEq, Repr

/-- `ApuGenerator::APU_SPEED_POWER_OUTPUT_THRESHOLD` (57.5 %), written as
`mkRat 115 2`. -/
def apuSpeedPowerOutputThreshold : ℚ := mkRat 115 2

/-- The APU generator (`ApuGenerator` in `src/lib.rs`). -/
structure ApuGenerator where
  output : Current
deriving DecidableEq, Repr

/-- `ApuGenerator::new`. -/
def ApuGenerator.new : ApuGenerator := { output := Current.none }

/-- `ApuGenerator::update` (`src/lib.rs` lines 206-214). -/
def ApuGenerator.update (g : ApuGenerator) (apu : AuxiliaryPowerUnit) : ApuGenerator :=
  if apuSpeedPowerOutputThreshold < apu.speed then
    { g with output := nominalAlternating PowerSource.apuGenerator }
  else
    { g with output := Current.none }

/-- External ground power (`ExternalPowerSource` in `src/lib.rs`). -/
structure ExternalPowerSource where
  plugged_in : Bool
deriving DecidableEq, Repr

/-- `ExternalPowerSource::new`. -/
def ExternalPowerSource.new : ExternalPowerSource := { plugged_in := false }

/-- `ExternalPowerSource::output` (`src/lib.rs` lines 240-247). -/
def ExternalPowerSource.output (e : ExternalPowerSource) : Current :=
  if e.plugged_in then nominalAlternating PowerSource.external else Current.none

/-- Modelled from the spec: §3 `EmergencyGenerator` of the absent `electrical`
module — emits while started (`attempt_start`) and blue hydraulic pressure is
present; the pressure sample is refreshed by `update`. -/
structure EmergencyGenerator where
  running : Bool
  is_blue_pressurised : Bool
deriving DecidableEq, Repr

/-- Emergency generator initial state: not started. -/
def EmergencyGenerator.new : EmergencyGenerator :=
  { running := false, is_blue_pressurised := false }

/-- Modelled from the spec: the per-tick pressure sample. -/
def EmergencyGenerator.update (g : EmergencyGenerator) (isBluePressurised : Bool) :
    EmergencyGenerator :=
  { g with is_blue_pressurised := isBluePressurised }

/-- Modelled from the spec: §6 `attempt_start` on the emergency generator. -/
def EmergencyGenerator.attempt_start (g : EmergencyGenerator) : EmergencyGenerator :=
  { g with running := true }

/-- Modelled from the spec: §3 — emits with source `EmergencyGenerator` when
started and blue hydraulics are pressurised. -/
def EmergencyGenerator.output (g : EmergencyGenerator) : Current :=
  if g.running && g.is_blue_pressurised then
    nominalAlternating PowerSource.emergencyGenerator
  else
    Current.none

/-- Modelled from the spec: §3 — TR output amperage is left unspecified
("Direct(source, 28V, …)"); a fixed nominal value is used, no claim inspects it. -/
def trNominalAmps : ℚ := 150

/-- Modelled from the spec: §3 `TransformerRectifier` of the absent `electrical`
module — a latched AC input and a fail flag. -/
structure TransformerRectifier where
  input : Current
  failed : Bool
deriving DecidableEq, Repr

/-- Transformer rectifier initial state. -/
def TransformerRectifier.new : TransformerRectifier :=
  { input := Current.none, failed := false }

/-- `Powerable::set_input` for the transformer rectifier. -/
def TransformerRectifier.set_input (tr : TransformerRectifier) (current : Current) :
    TransformerRectifier :=
  { tr with input := current }

/-- Modelled from the spec: §4.7 failure injection on a TR. -/
def TransformerRectifier.fail (tr : TransformerRectifier) : TransformerRectifier :=
  { tr with failed := true }

/-- Modelled from the spec: `has_failed` observation on a TR. -/
def TransformerRectifier.has_failed (tr : TransformerRectifier) : Bool := tr.failed

/-- Modelled from the spec: §3 — `None` if failed or the input is unpowered or
not alternating; otherwise `Direct` at 28 V preserving the input's source. -/
def TransformerRectifier.output (tr : TransformerRectifier) : Current :=
  if tr.failed then Current.none
  else
    match tr.input with
    | Current.alternating s _ _ _ => Current.direct s 28 trNominalAmps
    | _ => Current.none

/-- Modelled from the spec: §3 `Battery` — binary full/empty with a latched
charging input; discharge is out of scope. -/
structure Battery where
  number : Nat
  full : Bool
  input : Current
deriving DecidableEq, Repr

/-- `Battery::full(n)`: a full battery. -/
def Battery.new_full (number : Nat) : Battery :=
  { number := number, full := true, input := Current.none }

/-- `Battery::empty(n)`: an empty battery. -/
def Battery.new_empty (number : Nat) : Battery :=
  { number := number, full := false, input := Current.none }

/-- `Battery::is_full`. -/
def Battery.is_full (b : Battery) : Bool := b.full

/-- `Powerable::set_input` for a battery (its charging input). -/
def Battery.set_input (b : Battery) (current : Current) : Battery :=
  { b with input := current }

/-- `Battery::get_input`. -/
def Battery.get_input (b : Battery) : Current := b.input

/-- `UpdateContext` from `src/shared/mod.rs`: the tick's time delta (seconds). -/
structure UpdateContext where
  delta : ℚ
deriving DecidableEq, Repr

/-- The delay logic gate (`DelayedTrueLogicGate` in `src/shared/mod.rs`):
delays the true result of an expression by `delay`; false is output
immediately. -/
structure DelayedTrueLogicGate where
  delay : ℚ
  expression_result : Bool
  true_duration : ℚ
deriving DecidableEq, Repr

/-- `DelayedTrueLogicGate::new`. -/
def DelayedTrueLogicGate.new (delay : ℚ) : DelayedTrueLogicGate :=
  { delay := delay, expression_result := false, true_duration := 0 }

/-- `DelayedTrueLogicGate::update` (`src/shared/mod.rs` lines 32-41): the delta
is accumulated only when the previous and the current expression results are
both true, else the duration resets; then the expression result is recorded. -/
def DelayedTrueLogicGate.update (g : DelayedTrueLogicGate) (context : UpdateContext)
    (expression_result : Bool) : DelayedTrueLogicGate :=
  { g with
    true_duration :=
      if g.expression_result && expression_result then g.true_duration + context.delta
      else 0,
    expression_result := expression_result }

/-- `DelayedTrueLogicGate::output` (`src/shared/mod.rs` lines 43-49). -/
def DelayedTrueLogicGate.output (g : DelayedTrueLogicGate) : Bool :=
  g.expression_result && decide (g.delay ≤ g.true_duration)

/-- The overhead electrical panel (`A320ElectricalOverheadPanel` in
`src/a320/mod.rs` lines 173-186). -/
structure A320ElectricalOverheadPanel where
  bat_1 : OnOffPushButton
  bat_2 : OnOffPushButton
  idg_1 : OnOffPushButton
  idg_2 : OnOffPushButton
  gen_1 : OnOffPushButton
  gen_2 : OnOffPushButton
  apu_gen : OnOffPushButton
  bus_tie : OnOffPushButton
  ac_ess_feed : NormalAltnPushButton
  galy_and_cab : OnOffPushButton
  ext_pwr : OnOffPushButton
  commercial : OnOffPushButton
deriving DecidableEq, Repr

/-- `A320ElectricalOverheadPanel::new`: every button on, AC ESS FEED normal. -/
def A320ElectricalOverheadPanel.new : A320ElectricalOverheadPanel :=
  { bat_1 := OnOffPushButton.On
    bat_2 := OnOffPushButton.On
    idg_1 := OnOffPushButton.On
    idg_2 := OnOffPushButton.On
    gen_1 := OnOffPushButton.On
    gen_2 := OnOffPushButton.On
    apu_gen := OnOffPushButton.On
    bus_tie := OnOffPushButton.On
    ac_ess_feed := NormalAltnPushButton.Normal
    galy_and_cab := OnOffPushButton.On
    ext_pwr := OnOffPushButton.On
    commercial := OnOffPushButton.On }

/-- `A320HydraulicCircuit` (`src/a320/mod.rs` lines 207-222): hydraulics faked
by a single boolean. -/
structure A320HydraulicCircuit where
  blue_pressurised : Bool
deriving DecidableEq, Repr

/-- `A320HydraulicCircuit::new`. -/
def A320HydraulicCircuit.new : A320HydraulicCircuit := { blue_pressurised := true }

/-- `A320HydraulicCircuit::is_blue_pressurised`. -/
def A320HydraulicCircuit.is_blue_pressurised (h : A320HydraulicCircuit) : Bool :=
  h.blue_pressurised

/-- `A320ElectricalCircuit::AC_ESS_FEED_TO_AC_BUS_2_DELAY_IN_SECONDS` = 3 s. -/
def acEssFeedToAcBus2DelayInSeconds : ℚ := 3

/-- The A320 electrical circuit (`src/a320/mod.rs` lines 6-40). -/
structure A320ElectricalCircuit where
  engine_1_gen : EngineGenerator
  engine_1_gen_contactor : Contactor
  engine_2_gen : EngineGenerator
  engine_2_gen_contactor : Contactor
  bus_tie_1_contactor : Contactor
  bus_tie_2_contactor : Contactor
  apu_gen : ApuGenerator
  apu_gen_contactor : Contactor
  ext_pwr_contactor : Contactor
  ac_bus_1 : ElectricalBus
  ac_bus_2 : ElectricalBus
  ac_ess_bus : ElectricalBus
  ac_ess_feed_contactor_1 : Contactor
  ac_ess_feed_contactor_2 : Contactor
  ac_ess_feed_contactor_delay_logic_gate : DelayedTrueLogicGate
  tr_1 : TransformerRectifier
  tr_2 : TransformerRectifier
  tr_ess : TransformerRectifier
  ac_ess_to_tr_ess_contactor : Contactor
  emergency_gen : EmergencyGenerator
  emergency_gen_contactor : Contactor
  dc_bus_1 : ElectricalBus
  dc_bus_2 : ElectricalBus
  dc_bus_1_tie_contactor : Contactor
  dc_bus_2_tie_contactor : Contactor
  dc_bat_bus : ElectricalBus
  battery_1 : Battery
  battery_1_contactor : Contactor
  battery_2 : Battery
  battery_2_contactor : Contactor
deriving DecidableEq, Repr

/-- `A320ElectricalCircuit::new` (`src/a320/mod.rs` lines 45-78). -/
def A320ElectricalCircuit.new : A320ElectricalCircuit :=
  { engine_1_gen := EngineGenerator.new 1
    engine_1_gen_contactor := Contactor.new "9XU1"
    engine_2_gen := EngineGenerator.new 2
    engine_2_gen_contactor := Contactor.new "9XU2"
    bus_tie_1_contactor := Contactor.new "11XU1"
    bus_tie_2_contactor := Contactor.new "11XU2"
    apu_gen := ApuGenerator.new
    apu_gen_contactor := Contactor.new "3XS"
    ext_pwr_contactor := Contactor.new "3XG"
    ac_bus_1 := ElectricalBus.new
    ac_bus_2 := ElectricalBus.new
    ac_ess_bus := ElectricalBus.new
    ac_ess_feed_contactor_1 := Contactor.new "3XC1"
    ac_ess_feed_contactor_2 := Contactor.new "3XC2"
    ac_ess_feed_contactor_delay_logic_gate :=
      DelayedTrueLogicGate.new acEssFeedToAcBus2DelayInSeconds
    tr_1 := TransformerRectifier.new
    tr_2 := TransformerRectifier.new
    tr_ess := TransformerRectifier.new
    ac_ess_to_tr_ess_contactor := Contactor.new "15XE1"
    emergency_gen := EmergencyGenerator.new
    emergency_gen_contactor := Contactor.new "2XE"
    dc_bus_1 := ElectricalBus.new
    dc_bus_2 := ElectricalBus.new
    dc_bus_1_tie_contactor := Contactor.new "1PC1"
    dc_bus_2_tie_contactor := Contactor.new "1PC2"
    dc_bat_bus := ElectricalBus.new
    battery_1 := Battery.new_full 1
    battery_1_contactor := Contactor.new "6PB1"
    battery_2 := Battery.new_full 2
    battery_2_contactor := Contactor.new "6PB2" }

/-- `A320ElectricalCircuit::has_failed_or_is_unpowered`
(`src/a320/mod.rs` lines 168-170). -/
def hasFailedOrIsUnpowered (tr : TransformerRectifier) : Bool :=
  tr.has_failed || tr.output.is_unpowered

/-- `A320ElectricalCircuit::update` (`src/a320/mod.rs` lines 80-166), translated
statement by statement; Rust's in-place mutation becomes rebinding `let`s, and
each `powered_by`/`or_powered_by` call becomes a `set_input` with the feeder
outputs resolved by `firstPowered`/`orPowered` at that point of the sequence. -/
def A320ElectricalCircuit.update (self : A320ElectricalCircuit)
    (context : UpdateContext) (engine1 engine2 : Engine)
    (apu : AuxiliaryPowerUnit) (ext_pwr : ExternalPowerSource)
    (hydraulic : A320HydraulicCircuit)
    (elec_overhead : A320ElectricalOverheadPanel) : A320ElectricalCircuit :=
  let engine_1_gen := self.engine_1_gen.update engine1 elec_overhead.idg_1
  let engine_2_gen := self.engine_2_gen.update engine2 elec_overhead.idg_2
  let apu_gen := self.apu_gen.update apu
  let emergency_gen := self.emergency_gen.update hydraulic.is_blue_pressurised
  let gen_1_provides_power := elec_overhead.gen_1.is_on && engine_1_gen.output.is_powered
  let gen_2_provides_power := elec_overhead.gen_2.is_on && engine_2_gen.output.is_powered
  let no_engine_gen_provides_power := !gen_1_provides_power && !gen_2_provides_power
  let only_one_engine_gen_is_powered := gen_1_provides_power ^^ gen_2_provides_power
  let ext_pwr_provides_power :=
    elec_overhead.ext_pwr.is_on && ext_pwr.output.is_powered &&
      (no_engine_gen_provides_power || only_one_engine_gen_is_powered)
  let apu_gen_provides_power :=
    elec_overhead.apu_gen.is_on && apu_gen.output.is_powered &&
      !ext_pwr_provides_power &&
      (no_engine_gen_provides_power || only_one_engine_gen_is_powered)
  let engine_1_gen_contactor := self.engine_1_gen_contactor.toggle gen_1_provides_power
  let engine_2_gen_contactor := self.engine_2_gen_contactor.toggle gen_2_provides_power
  let apu_gen_contactor := self.apu_gen_contactor.toggle apu_gen_provides_power
  let ext_pwr_contactor := self.ext_pwr_contactor.toggle ext_pwr_provides_power
  let apu_or_ext_pwr_provides_power := ext_pwr_provides_power || apu_gen_provides_power
  let bus_tie_1_contactor := self.bus_tie_1_contactor.toggle
    ((only_one_engine_gen_is_powered && !apu_or_ext_pwr_provides_power) ||
      (apu_or_ext_pwr_provides_power && !gen_1_provides_power))
  let bus_tie_2_contactor := self.bus_tie_2_contactor.toggle
    ((only_one_engine_gen_is_powered && !apu_or_ext_pwr_provides_power) ||
      (apu_or_ext_pwr_provides_power && !gen_2_provides_power))
  let apu_gen_contactor := apu_gen_contactor.set_input (firstPowered [apu_gen.output])
  let ext_pwr_contactor := ext_pwr_contactor.set_input (firstPowered [ext_pwr.output])
  let engine_1_gen_contactor :=
    engine_1_gen_contactor.set_input (firstPowered [engine_1_gen.output])
  let bus_tie_1_contactor := bus_tie_1_contactor.set_input
    (firstPowered [engine_1_gen_contactor.output, apu_gen_contactor.output,
      ext_pwr_contactor.output])
  let engine_2_gen_contactor :=
    engine_2_gen_contactor.set_input (firstPowered [engine_2_gen.output])
  let bus_tie_2_contactor := bus_tie_2_contactor.set_input
    (firstPowered [engine_2_gen_contactor.output, apu_gen_contactor.output,
      ext_pwr_contactor.output])
  let bus_tie_1_contactor := bus_tie_1_contactor.set_input
    (orPowered bus_tie_1_contactor.input [bus_tie_2_contactor.output])
  let bus_tie_2_contactor := bus_tie_2_contactor.set_input
    (orPowered bus_tie_2_contactor.input [bus_tie_1_contactor.output])
  let ac_bus_1 := self.ac_bus_1.set_input
    (firstPowered [engine_1_gen_contactor.output, bus_tie_1_contactor.output])
  let ac_bus_2 := self.ac_bus_2.set_input
    (firstPowered [engine_2_gen_contactor.output, bus_tie_2_contactor.output])
  let tr_1 := self.tr_1.set_input (firstPowered [ac_bus_1.output])
  let tr_2 := self.tr_2.set_input (firstPowered [ac_bus_2.output])
  let ac_ess_feed_contactor_delay_logic_gate :=
    self.ac_ess_feed_contactor_delay_logic_gate.update context
      ac_bus_1.output.is_unpowered
  let ac_ess_feed_contactor_1 := self.ac_ess_feed_contactor_1.toggle
    (ac_bus_1.output.is_powered &&
      (!ac_ess_feed_contactor_delay_logic_gate.output &&
        elec_overhead.ac_ess_feed.is_normal))
  let ac_ess_feed_contactor_2 := self.ac_ess_feed_contactor_2.toggle
    (ac_bus_2.output.is_powered &&
      (ac_ess_feed_contactor_delay_logic_gate.output ||
        elec_overhead.ac_ess_feed.is_altn))
  let ac_ess_feed_contactor_1 :=
    ac_ess_feed_contactor_1.set_input (firstPowered [ac_bus_1.output])
  let ac_ess_feed_contactor_2 :=
    ac_ess_feed_contactor_2.set_input (firstPowered [ac_bus_2.output])
  let ac_ess_bus := self.ac_ess_bus.set_input
    (firstPowered [ac_ess_feed_contactor_1.output, ac_ess_feed_contactor_2.output])
  let emergency_gen_contactor := self.emergency_gen_contactor.toggle
    (ac_bus_1.output.is_unpowered && ac_bus_2.output.is_unpowered)
  let emergency_gen_contactor :=
    emergency_gen_contactor.set_input (firstPowered [emergency_gen.output])
  let ac_ess_to_tr_ess_contactor := self.ac_ess_to_tr_ess_contactor.set_input
    (firstPowered [ac_ess_bus.output, emergency_gen_contactor.output])
  let ac_ess_to_tr_ess_contactor := ac_ess_to_tr_ess_contactor.toggle
    (hasFailedOrIsUnpowered tr_1 || hasFailedOrIsUnpowered tr_2)
  let ac_ess_bus := ac_ess_bus.set_input
    (orPowered ac_ess_bus.input [ac_ess_to_tr_ess_contactor.output])
  let tr_ess := self.tr_ess.set_input
    (firstPowered [ac_ess_to_tr_ess_contactor.output, emergency_gen_contactor.output])
  let dc_bus_1 := self.dc_bus_1.set_input (firstPowered [tr_1.output])
  let dc_bus_2 := self.dc_bus_2.set_input (firstPowered [tr_2.output])
  let dc_bus_1_tie_contactor :=
    self.dc_bus_1_tie_contactor.set_input (firstPowered [dc_bus_1.output])
  let dc_bus_2_tie_contactor :=
    self.dc_bus_2_tie_contactor.set_input (firstPowered [dc_bus_2.output])
  let dc_bus_1_tie_contactor := dc_bus_1_tie_contactor.toggle
    (dc_bus_1.output.is_powered || dc_bus_2.output.is_powered)
  let dc_bus_2_tie_contactor := dc_bus_2_tie_contactor.toggle
    (dc_bus_1.output.is_unpowered || dc_bus_2.output.is_unpowered)
  let dc_bat_bus := self.dc_bat_bus.set_input
    (firstPowered [dc_bus_1_tie_contactor.output, dc_bus_2_tie_contactor.output])
  let dc_bus_1_tie_contactor := dc_bus_1_tie_contactor.set_input
    (orPowered dc_bus_1_tie_contactor.input [dc_bat_bus.output])
  let dc_bus_2_tie_contactor := dc_bus_2_tie_contactor.set_input
    (orPowered dc_bus_2_tie_contactor.input [dc_bat_bus.output])
  let dc_bus_1 := dc_bus_1.set_input
    (orPowered dc_bus_1.input [dc_bus_1_tie_contactor.output])
  let dc_bus_2 := dc_bus_2.set_input
    (orPowered dc_bus_2.input [dc_bus_2_tie_contactor.output])
  let battery_1_contactor :=
    self.battery_1_contactor.set_input (firstPowered [dc_bat_bus.output])
  let battery_2_contactor :=
    self.battery_2_contactor.set_input (firstPowered [dc_bat_bus.output])
  let battery_1_contactor := battery_1_contactor.toggle (!self.battery_1.is_full)
  let battery_2_contactor := battery_2_contactor.toggle (!self.battery_2.is_full)
  let battery_1 := self.battery_1.set_input (firstPowered [battery_1_contactor.output])
  let battery_2 := self.battery_2.set_input (firstPowered [battery_2_contactor.output])
  { engine_1_gen := engine_1_gen
    engine_1_gen_contactor := engine_1_gen_contactor
    engine_2_gen := engine_2_gen
    engine_2_gen_contactor := engine_2_gen_contactor
    bus_tie_1_contactor := bus_tie_1_contactor
    bus_tie_2_contactor := bus_tie_2_contactor
    apu_gen := apu_gen
    apu_gen_contactor := apu_gen_contactor
    ext_pwr_contactor := ext_pwr_contactor
    ac_bus_1 := ac_bus_1
    ac_bus_2 := ac_bus_2
    ac_ess_bus := ac_ess_bus
    ac_ess_feed_contactor_1 := ac_ess_feed_contactor_1
    ac_ess_feed_contactor_2 := ac_ess_feed_contactor_2
    ac_ess_feed_contactor_delay_logic_gate := ac_ess_feed_contactor_delay_logic_gate
    tr_1 := tr_1
    tr_2 := tr_2
    tr_ess := tr_ess
    ac_ess_to_tr_ess_contactor := ac_ess_to_tr_ess_contactor
    emergency_gen := emergency_gen
    emergency_gen_contactor := emergency_gen_contactor
    dc_bus_1 := dc_bus_1
    dc_bus_2 := dc_bus_2
    dc_bus_1_tie_contactor := dc_bus_1_tie_contactor
    dc_bus_2_tie_contactor := dc_bus_2_tie_contactor
    dc_bat_bus := dc_bat_bus
    battery_1 := battery_1
    battery_1_contactor := battery_1_contactor
    battery_2 := battery_2
    battery_2_contactor := battery_2_contactor }

/-! Staged view of `A320ElectricalCircuit::update`: one named definition per
intermediate value of the update sequence (the Rust function's local variables
and successive mutation states), used to state and prove field-wise
characterization lemmas about `update`. Each definition is definitionally
equal to the corresponding value inside `update`. -/
namespace Stage

variable (self : A320ElectricalCircuit) (context : UpdateContext)
variable (engine1 engine2 : Engine) (apu : AuxiliaryPowerUnit)
variable (ext_pwr : ExternalPowerSource) (hydraulic : A320HydraulicCircuit)
variable (elec_overhead : A320ElectricalOverheadPanel)

/-- The updated engine 1 generator. -/
def engine1Gen : EngineGenerator := self.engine_1_gen.update engine1 elec_overhead.idg_1

/-- The updated engine 2 generator. -/
def engine2Gen : EngineGenerator := self.engine_2_gen.update engine2 elec_overhead.idg_2

/-- The updated APU generator. -/
def apuGen : ApuGenerator := self.apu_gen.update apu

/-- The updated emergency generator. -/
def emergencyGen : EmergencyGenerator :=
  self.emergency_gen.update hydraulic.is_blue_pressurised

/-- `gen_1_provides_power`. -/
def gen1ProvidesPower : Bool :=
  elec_overhead.gen_1.is_on && (engine1Gen self engine1 elec_overhead).output.is_powered

/-- `gen_2_provides_power`. -/
def gen2ProvidesPower : Bool :=
  elec_overhead.gen_2.is_on && (engine2Gen self engine2 elec_overhead).output.is_powered

/-- `no_engine_gen_provides_power`. -/
def noEngineGenProvidesPower : Bool :=
  !gen1ProvidesPower self engine1 elec_overhead &&
    !gen2ProvidesPower self engine2 elec_overhead

/-- `only_one_engine_gen_is_powered`. -/
def onlyOneEngineGenIsPowered : Bool :=
  gen1ProvidesPower self engine1 elec_overhead ^^
    gen2ProvidesPower self engine2 elec_overhead

/-- `ext_pwr_provides_power`. -/
def extPwrProvidesPower : Bool :=
  elec_overhead.ext_pwr.is_on && ext_pwr.output.is_powered &&
    (noEngineGenProvidesPower self engine1 engine2 elec_overhead ||
      onlyOneEngineGenIsPowered self engine1 engine2 elec_overhead)

/-- `apu_gen_provides_power`. -/
def apuGenProvidesPower : Bool :=
  elec_overhead.apu_gen.is_on && (apuGen self apu).output.is_powered &&
    !extPwrProvidesPower self engine1 engine2 ext_pwr elec_overhead &&
    (noEngineGenProvidesPower self engine1 engine2 elec_overhead ||
      onlyOneEngineGenIsPowered self engine1 engine2 elec_overhead)

/-- `apu_or_ext_pwr_provides_power`. -/
def apuOrExtPwrProvidesPower : Bool :=
  extPwrProvidesPower self engine1 engine2 ext_pwr elec_overhead ||
    apuGenProvidesPower self engine1 engine2 apu ext_pwr elec_overhead

/-- The engine 1 generator contactor after toggle and `powered_by`. -/
def engine1GenContactor : Contactor :=
  (self.engine_1_gen_contactor.toggle (gen1ProvidesPower self engine1 elec_overhead)).set_input
    (firstPowered [(engine1Gen self engine1 elec_overhead).output])

/-- The engine 2 generator contactor after toggle and `powered_by`. -/
def engine2GenContactor : Contactor :=
  (self.engine_2_gen_contactor.toggle (gen2ProvidesPower self engine2 elec_overhead)).set_input
    (firstPowered [(engine2Gen self engine2 elec_overhead).output])

/-- The APU generator contactor after toggle and `powered_by`. -/
def apuGenContactor : Contactor :=
  (self.apu_gen_contactor.toggle
      (apuGenProvidesPower self engine1 engine2 apu ext_pwr elec_overhead)).set_input
    (firstPowered [(apuGen self apu).output])

/-- The external power contactor after toggle and `powered_by`. -/
def extPwrContactor : Contactor :=
  (self.ext_pwr_contactor.toggle
      (extPwrProvidesPower self engine1 engine2 ext_pwr elec_overhead)).set_input
    (firstPowered [ext_pwr.output])

/-- Bus tie 1 contactor after toggle and its primary `powered_by`. -/
def busTie1Primary : Contactor :=
  ((self.bus_tie_1_contactor.toggle
      ((onlyOneEngineGenIsPowered self engine1 engine2 elec_overhead &&
          !apuOrExtPwrProvidesPower self engine1 engine2 apu ext_pwr elec_overhead) ||
        (apuOrExtPwrProvidesPower self engine1 engine2 apu ext_pwr elec_overhead &&
          !gen1ProvidesPower self engine1 elec_overhead)))).set_input
    (firstPowered
      [(engine1GenContactor self engine1 elec_overhead).output,
        (apuGenContactor self engine1 engine2 apu ext_pwr elec_overhead).output,
        (extPwrContactor self engine1 engine2 ext_pwr elec_overhead).output])

/-- Bus tie 2 contactor after toggle and its primary `powered_by`. -/
def busTie2Primary : Contactor :=
  ((self.bus_tie_2_contactor.toggle
      ((onlyOneEngineGenIsPowered self engine1 engine2 elec_overhead &&
          !apuOrExtPwrProvidesPower self engine1 engine2 apu ext_pwr elec_overhead) ||
        (apuOrExtPwrProvidesPower self engine1 engine2 apu ext_pwr elec_overhead &&
          !gen2ProvidesPower self engine2 elec_overhead)))).set_input
    (firstPowered
      [(engine2GenContactor self engine2 elec_overhead).output,
        (apuGenContactor self engine1 engine2 apu ext_pwr elec_overhead).output,
        (extPwrContactor self engine1 engine2 ext_pwr elec_overhead).output])

/-- Bus tie 1 contactor after its `or_powered_by` back-feed. -/
def busTie1Final : Contactor :=
  (busTie1Primary self engine1 engine2 apu ext_pwr elec_overhead).set_input
    (orPowered (busTie1Primary self engine1 engine2 apu ext_pwr elec_overhead).input
      [(busTie2Primary self engine1 engine2 apu ext_pwr elec_overhead).output])

/-- Bus tie 2 contactor after its `or_powered_by` back-feed (which sees bus
tie 1 in its final state). -/
def busTie2Final : Contactor :=
  (busTie2Primary self engine1 engine2 apu ext_pwr elec_overhead).set_input
    (orPowered (busTie2Primary self engine1 engine2 apu ext_pwr elec_overhead).input
      [(busTie1Final self engine1 engine2 apu ext_pwr elec_overhead).output])

/-- AC BUS 1 after `powered_by`. -/
def acBus1 : ElectricalBus :=
  self.ac_bus_1.set_input
    (firstPowered
      [(engine1GenContactor self engine1 elec_overhead).output,
        (busTie1Final self engine1 engine2 apu ext_pwr elec_overhead).output])

/-- AC BUS 2 after `powered_by`. -/
def acBus2 : ElectricalBus :=
  self.ac_bus_2.set_input
    (firstPowered
      [(engine2GenContactor self engine2 elec_overhead).output,
        (busTie2Final self engine1 engine2 apu ext_pwr elec_overhead).output])

/-- TR 1 after `powered_by`. -/
def tr1 : TransformerRectifier :=
  self.tr_1.set_input
    (firstPowered [(acBus1 self engine1 engine2 apu ext_pwr elec_overhead).output])

/-- TR 2 after `powered_by`. -/
def tr2 : TransformerRectifier :=
  self.tr_2.set_input
    (firstPowered [(acBus2 self engine1 engine2 apu ext_pwr elec_overhead).output])

/-- The AC ESS feed delay gate after its update. -/
def delayGate : DelayedTrueLogicGate :=
  self.ac_ess_feed_contactor_delay_logic_gate.update context
    (acBus1 self engine1 engine2 apu ext_pwr elec_overhead).output.is_unpowered

/-- AC ESS feed contactor 1 after toggle and `powered_by`. -/
def acEssFeedContactor1 : Contactor :=
  (self.ac_ess_feed_contactor_1.toggle
      ((acBus1 self engine1 engine2 apu ext_pwr elec_overhead).output.is_powered &&
        (!(delayGate self context engine1 engine2 apu ext_pwr elec_overhead).output &&
          elec_overhead.ac_ess_feed.is_normal))).set_input
    (firstPowered [(acBus1 self engine1 engine2 apu ext_pwr elec_overhead).output])

/-- AC ESS feed contactor 2 after toggle and `powered_by`. -/
def acEssFeedContactor2 : Contactor :=
  (self.ac_ess_feed_contactor_2.toggle
      ((acBus2 self engine1 engine2 apu ext_pwr elec_overhead).output.is_powered &&
        ((delayGate self context engine1 engine2 apu ext_pwr elec_overhead).output ||
          elec_overhead.ac_ess_feed.is_altn))).set_input
    (firstPowered [(acBus2 self engine1 engine2 apu ext_pwr elec_overhead).output])

/-- AC ESS BUS after its primary `powered_by` (before the emergency back-feed). -/
def acEssBusPrimary : ElectricalBus :=
  self.ac_ess_bus.set_input
    (firstPowered
      [(acEssFeedContactor1 self context engine1 engine2 apu ext_pwr elec_overhead).output,
        (acEssFeedContactor2 self context engine1 engine2 apu ext_pwr elec_overhead).output])

/-- The emergency generator contactor after toggle and `powered_by`. -/
def emergencyGenContactor : Contactor :=
  (self.emergency_gen_contactor.toggle
      ((acBus1 self engine1 engine2 apu ext_pwr elec_overhead).output.is_unpowered &&
        (acBus2 self engine1 engine2 apu ext_pwr elec_overhead).output.is_unpowered)).set_input
    (firstPowered [(emergencyGen self hydraulic).output])

/-- The AC ESS to TR ESS contactor after `powered_by` and toggle (in that
order, as in the source). -/
def acEssToTrEssContactor : Contactor :=
  ((self.ac_ess_to_tr_ess_contactor.set_input
      (firstPowered
        [(acEssBusPrimary self context engine1 engine2 apu ext_pwr elec_overhead).output,
          (emergencyGenContactor self engine1 engine2 apu ext_pwr hydraulic
              elec_overhead).output])).toggle
    (hasFailedOrIsUnpowered (tr1 self engine1 engine2 apu ext_pwr elec_overhead) ||
      hasFailedOrIsUnpowered (tr2 self engine1 engine2 apu ext_pwr elec_overhead)))

/-- AC ESS BUS after the emergency back-feed `or_powered_by`. -/
def acEssBusFinal : ElectricalBus :=
  (acEssBusPrimary self context engine1 engine2 apu ext_pwr elec_overhead).set_input
    (orPowered
      (acEssBusPrimary self context engine1 engine2 apu ext_pwr elec_overhead).input
      [(acEssToTrEssContactor self context engine1 engine2 apu ext_pwr hydraulic
          elec_overhead).output])

/-- TR ESS after `powered_by`. -/
def trEss : TransformerRectifier :=
  self.tr_ess.set_input
    (firstPowered
      [(acEssToTrEssContactor self context engine1 engine2 apu ext_pwr hydraulic
          elec_overhead).output,
        (emergencyGenContactor self engine1 engine2 apu ext_pwr hydraulic
            elec_overhead).output])

/-- DC BUS 1 after its primary `powered_by`. -/
def dcBus1Primary : ElectricalBus :=
  self.dc_bus_1.set_input
    (firstPowered [(tr1 self engine1 engine2 apu ext_pwr elec_overhead).output])

/-- DC BUS 2 after its primary `powered_by`. -/
def dcBus2Primary : ElectricalBus :=
  self.dc_bus_2.set_input
    (firstPowered [(tr2 self engine1 engine2 apu ext_pwr elec_overhead).output])

/-- DC BUS 1 tie contactor after `powered_by` and toggle. -/
def dcTie1Stage : Contactor :=
  ((self.dc_bus_1_tie_contactor.set_input
      (firstPowered
        [(dcBus1Primary self engine1 engine2 apu ext_pwr elec_overhead).output])).toggle
    ((dcBus1Primary self engine1 engine2 apu ext_pwr elec_overhead).output.is_powered ||
      (dcBus2Primary self engine1 engine2 apu ext_pwr elec_overhead).output.is_powered))

/-- DC BUS 2 tie contactor after `powered_by` and toggle. -/
def dcTie2Stage : Contactor :=
  ((self.dc_bus_2_tie_contactor.set_input
      (firstPowered
        [(dcBus2Primary self engine1 engine2 apu ext_pwr elec_overhead).output])).toggle
    ((dcBus1Primary self engine1 engine2 apu ext_pwr elec_overhead).output.is_unpowered ||
      (dcBus2Primary self engine1 engine2 apu ext_pwr elec_overhead).output.is_unpowered))

/-- DC BAT BUS after `powered_by`. -/
def dcBatBus : ElectricalBus :=
  self.dc_bat_bus.set_input
    (firstPowered
      [(dcTie1Stage self engine1 engine2 apu ext_pwr elec_overhead).output,
        (dcTie2Stage self engine1 engine2 apu ext_pwr elec_overhead).output])

/-- DC BUS 1 tie contactor after its `or_powered_by` back-feed. -/
def dcTie1Final : Contactor :=
  (dcTie1Stage self engine1 engine2 apu ext_pwr elec_overhead).set_input
    (orPowered (dcTie1Stage self engine1 engine2 apu ext_pwr elec_overhead).input
      [(dcBatBus self engine1 engine2 apu ext_pwr elec_overhead).output])

/-- DC BUS 2 tie contactor after its `or_powered_by` back-feed. -/
def dcTie2Final : Contactor :=
  (dcTie2Stage self engine1 engine2 apu ext_pwr elec_overhead).set_input
    (orPowered (dcTie2Stage self engine1 engine2 apu ext_pwr elec_overhead).input
      [(dcBatBus self engine1 engine2 apu ext_pwr elec_overhead).output])

/-- DC BUS 1 after its `or_powered_by` back-feed. -/
def dcBus1Final : ElectricalBus :=
  (dcBus1Primary self engine1 engine2 apu ext_pwr elec_overhead).set_input
    (orPowered (dcBus1Primary self engine1 engine2 apu ext_pwr elec_overhead).input
      [(dcTie1Final self engine1 engine2 apu ext_pwr elec_overhead).output])

/-- DC BUS 2 after its `or_powered_by` back-feed. -/
def dcBus2Final : ElectricalBus :=
  (dcBus2Primary self engine1 engine2 apu ext_pwr elec_overhead).set_input
    (orPowered (dcBus2Primary self engine1 engine2 apu ext_pwr elec_overhead).input
      [(dcTie2Final self engine1 engine2 apu ext_pwr elec_overhead).output])

end Stage

/-- One tick's worth of external inputs to `A320ElectricalCircuit::update`. -/
structure A320SimInputs where
  context : UpdateContext
  engine1 : Engine
  engine2 : Engine
  apu : AuxiliaryPowerUnit
  ext_pwr : ExternalPowerSource
  hydraulic : A320HydraulicCircuit
  elec_overhead : A320ElectricalOverheadPanel
deriving DecidableEq, Repr

/-- `update` applied to one bundled tick input. -/
def A320ElectricalCircuit.updateWith (self : A320ElectricalCircuit)
    (i : A320SimInputs) : A320ElectricalCircuit :=
  self.update i.context i.engine1 i.engine2 i.apu i.ext_pwr i.hydraulic i.elec_overhead

/-- A sequence of ticks, first element first. -/
def runTicks (s : A320ElectricalCircuit) (ticks : List A320SimInputs) :
    A320ElectricalCircuit :=
  ticks.foldl A320ElectricalCircuit.updateWith s

/-- Elapsed simulation time at tick `k` (0-indexed) counted from the time of
tick 0: the sum of the deltas of ticks `1..k` (tick `k`'s observation happens
`delta k` after tick `k-1`; tick 0 itself is the time origin). -/
def elapsedSince (ticks : List A320SimInputs) (k : Nat) : ℚ :=
  (((ticks.drop 1).take k).map fun t => t.context.delta).sum

/-- A freshly constructed circuit whose AC BUS 1 has the injected fault
(the testers' `failed_ac_bus_1` configuration). -/
def acBus1FailedCircuit : A320ElectricalCircuit :=
  { A320ElectricalCircuit.new with
      ac_bus_1 := A320ElectricalCircuit.new.ac_bus_1.fail }

/-- A freshly constructed circuit with both AC buses failed, the AC ESS BUS and
the TR ESS failed, and the emergency generator started. -/
def emergencyFaultedCircuit : A320ElectricalCircuit :=
  { A320ElectricalCircuit.new with
      ac_bus_1 := A320ElectricalCircuit.new.ac_bus_1.fail
      ac_bus_2 := A320ElectricalCircuit.new.ac_bus_2.fail
      ac_ess_bus := A320ElectricalCircuit.new.ac_ess_bus.fail
      tr_ess := A320ElectricalCircuit.new.tr_ess.fail
      emergency_gen := A320ElectricalCircuit.new.emergency_gen.attempt_start }

/-- Tick inputs with both engines running (58 % N2), no APU, no external power
and the default overhead panel; `d` is the tick's delta in seconds. -/
def bothEnginesTick (d : ℚ) : A320SimInputs :=
  { context := { delta := d }
    engine1 := { n2 := 58 }
    engine2 := { n2 := 58 }
    apu := { speed := 0 }
    ext_pwr := { plugged_in := false }
    hydraulic := { blue_pressurised := true }
    elec_overhead := A320ElectricalOverheadPanel.new }

/-- Tick inputs with engines, APU and external power all off and blue
hydraulics pressurised. -/
def allOffTick (d : ℚ) : A320SimInputs :=
  { context := { delta := d }
    engine1 := { n2 := 0 }
    engine2 := { n2 := 0 }
    apu := { speed := 0 }
    ext_pwr := { plugged_in := false }
    hydraulic := { blue_pressurised := true }
    elec_overhead := A320ElectricalOverheadPanel.new }

/-- A freshly constructed circuit whose emergency generator has been started. -/
def emergencyStartedCircuit : A320ElectricalCircuit :=
  { A320ElectricalCircuit.new with
      emergency_gen := A320ElectricalCircuit.new.emergency_gen.attempt_start }

/-- A freshly constructed circuit with TR 1 and TR 2 failed (the testers'
`failed_tr_1().and().failed_tr_2()` configuration). -/
def trFailedCircuit : A320ElectricalCircuit :=
  { A320ElectricalCircuit.new with
      tr_1 := A320ElectricalCircuit.new.tr_1.fail
      tr_2 := A320ElectricalCircuit.new.tr_2.fail }

/-- Tick inputs with everything off except a running APU and plugged-in
external power. -/
def extAndApuTick (d : ℚ) : A320SimInputs :=
  { context := { delta := d }
    engine1 := { n2 := 0 }
    engine2 := { n2 := 0 }
    apu := { speed := 100 }
    ext_pwr := { plugged_in := true }
    hydraulic := { blue_pressurised := true }
    elec_overhead := A320ElectricalOverheadPanel.new }

/-! ## Helper lemmas -/

theorem engineN2PowerOutputThreshold_eq : engineN2PowerOutputThreshold = 57.5 := by
  norm_num [engineN2PowerOutputThreshold, mkRat, Rat.normalize]

theorem apuSpeedPowerOutputThreshold_eq : apuSpeedPowerOutputThreshold = 57.5 := by
  norm_num [apuSpeedPowerOutputThreshold, mkRat, Rat.normalize]

theorem nominalAlternating_eq (source : PowerSource) :
    nominalAlternating source = Current.alternating source 400 115 782.60 := by
  norm_num [nominalAlternating, mkRat, Rat.normalize]

@[simp]
theorem Contactor.toggle_state (c : Contactor) (b : Bool) :
    (c.toggle b).state = if b then ContactorState.Closed else ContactorState.Open := by
  rcases c with ⟨i, st, inp⟩
  cases st <;> cases b <;> simp [Contactor.toggle]

@[simp]
theorem Contactor.toggle_input (c : Contactor) (b : Bool) :
    (c.toggle b).input = c.input := rfl

@[simp]
theorem Contactor.set_input_state (c : Contactor) (cur : Current) :
    (c.set_input cur).state = c.state := rfl

@[simp]
theorem Contactor.set_input_input (c : Contactor) (cur : Current) :
    (c.set_input cur).input = cur := rfl

theorem Contactor.output_eq (c : Contactor) :
    c.output = if c.state = ContactorState.Closed then c.input else Current.none := by
  rcases c with ⟨i, st, inp⟩
  cases st <;> simp [Contactor.output]

@[simp]
theorem ElectricalBus.input_of_set_input (b : ElectricalBus) (cur : Current) :
    (b.set_input cur).input = cur := rfl

@[simp]
theorem ElectricalBus.failed_of_set_input (b : ElectricalBus) (cur : Current) :
    (b.set_input cur).failed = b.failed := rfl

@[simp]
theorem firstPowered_nil : firstPowered [] = Current.none := rfl

@[simp]
theorem firstPowered_none_cons (rest : List Current) :
    firstPowered (Current.none :: rest) = firstPowered rest := rfl

@[simp]
theorem firstPowered_singleton (c : Current) : firstPowered [c] = c := by
  cases c <;> rfl

theorem firstPowered_cons_of_ne (c : Current) (rest : List Current)
    (h : c ≠ Current.none) : firstPowered (c :: rest) = c := by
  cases c <;> simp_all [firstPowered]

@[simp]
theorem Current.is_none_eq_true_iff (c : Current) :
    c.is_none = true ↔ c = Current.none := by
  cases c <;> simp [Current.is_none]

@[simp]
theorem Current.is_unpowered_eq_true_iff (c : Current) :
    c.is_unpowered = true ↔ c = Current.none := by
  cases c <;> simp [Current.is_unpowered, Current.is_none]

@[simp]
theorem Current.is_powered_eq_true_iff (c : Current) :
    c.is_powered = true ↔ c ≠ Current.none := by
  cases c <;> simp [Current.is_powered, Current.is_none]

theorem Current.is_unpowered_eq_not_is_powered (c : Current) :
    c.is_unpowered = !c.is_powered := by
  cases c <;> rfl

theorem ExternalPowerSource.output_of_powered (e : ExternalPowerSource)
    (h : e.output.is_powered = true) :
    e.output = nominalAlternating PowerSource.external := by
  cases hp : e.plugged_in <;> simp_all [ExternalPowerSource.output]

theorem okSource_none : okSource Current.none := by
  simp [okSource, Current.source]

theorem okSource_nominal_engine (n : Nat) :
    okSource (nominalAlternating (PowerSource.engineGenerator n)) := by
  simp [okSource, nominalAlternating, Current.source]

theorem okSource_nominal_emergency :
    okSource (nominalAlternating PowerSource.emergencyGenerator) := by
  simp [okSource, nominalAlternating, Current.source]

theorem okSource_firstPowered_one (a : Current) (ha : okSource a) :
    okSource (firstPowered [a]) := by
  simpa using ha

theorem okSource_firstPowered_two (a b : Current) (ha : okSource a)
    (hb : okSource b) : okSource (firstPowered [a, b]) := by
  cases a
  · simpa using ha
  · simpa using ha
  · simpa using hb

theorem okSource_firstPowered_three (a b c : Current) (ha : okSource a)
    (hb : okSource b) (hc : okSource c) : okSource (firstPowered [a, b, c]) := by
  cases a
  · simpa using ha
  · simpa using ha
  · exact okSource_firstPowered_two b c hb hc

theorem okSource_orPowered_one (input a : Current) (h : okSource input)
    (ha : okSource a) : okSource (orPowered input [a]) := by
  unfold orPowered
  split
  · simpa using ha
  · exact h

theorem okSource_contactor_output (c : Contactor) (h : okSource c.input) :
    okSource c.output := by
  rw [Contactor.output_eq]
  split
  · exact h
  · exact okSource_none

theorem okSource_bus_output (b : ElectricalBus) (h : okSource b.input) :
    okSource b.output := by
  unfold ElectricalBus.output
  split
  · exact okSource_none
  · exact h

theorem EngineGenerator.update_output_cases (g : EngineGenerator) (engine : Engine)
    (idg : OnOffPushButton) :
    (g.update engine idg).output =
        nominalAlternating (PowerSource.engineGenerator g.number) ∨
      (g.update engine idg).output = Current.none := by
  unfold EngineGenerator.update
  split
  · exact Or.inl rfl
  · exact Or.inr rfl

theorem EmergencyGenerator.output_cases (g : EmergencyGenerator) :
    g.output = nominalAlternating PowerSource.emergencyGenerator ∨
      g.output = Current.none := by
  unfold EmergencyGenerator.output
  split
  · exact Or.inl rfl
  · exact Or.inr rfl

/-! ## Characterization of the update function by stages

Each lemma states that a field of the updated circuit equals the corresponding
staged definition; every proof is `rfl`, certifying that the staged view is
definitionally the monolithic `update`. -/

section Characterization

variable (self : A320ElectricalCircuit) (context : UpdateContext)
variable (engine1 engine2 : Engine) (apu : AuxiliaryPowerUnit)
variable (ext_pwr : ExternalPowerSource) (hydraulic : A320HydraulicCircuit)
variable (elec_overhead : A320ElectricalOverheadPanel)

theorem update_engine_1_gen :
    (self.update context engine1 engine2 apu ext_pwr hydraulic
        elec_overhead).engine_1_gen = Stage.engine1Gen self engine1 elec_overhead := rfl

theorem update_engine_2_gen :
    (self.update context engine1 engine2 apu ext_pwr hydraulic
        elec_overhead).engine_2_gen = Stage.engine2Gen self engine2 elec_overhead := rfl

theorem update_apu_gen :
    (self.update context engine1 engine2 apu ext_pwr hydraulic
        elec_overhead).apu_gen = Stage.apuGen self apu := rfl

theorem update_emergency_gen :
    (self.update context engine1 engine2 apu ext_pwr hydraulic
        elec_overhead).emergency_gen = Stage.emergencyGen self hydraulic := rfl

theorem update_engine_1_gen_contactor :
    (self.update context engine1 engine2 apu ext_pwr hydraulic
        elec_overhead).engine_1_gen_contactor =
      Stage.engine1GenContactor self engine1 elec_overhead := rfl

theorem update_engine_2_gen_contactor :
    (self.update context engine1 engine2 apu ext_pwr hydraulic
        elec_overhead).engine_2_gen_contactor =
      Stage.engine2GenContactor self engine2 elec_overhead := rfl

theorem update_apu_gen_contactor :
    (self.update context engine1 engine2 apu ext_pwr hydraulic
        elec_overhead).apu_gen_contactor =
      Stage.apuGenContactor self engine1 engine2 apu ext_pwr elec_overhead := rfl

theorem update_ext_pwr_contactor :
    (self.update context engine1 engine2 apu ext_pwr hydraulic
        elec_overhead).ext_pwr_contactor =
      Stage.extPwrContactor self engine1 engine2 ext_pwr elec_overhead := rfl

theorem update_bus_tie_1_contactor :
    (self.update context engine1 engine2 apu ext_pwr hydraulic
        elec_overhead).bus_tie_1_contactor =
      Stage.busTie1Final self engine1 engine2 apu ext_pwr elec_overhead := rfl

theorem update_bus_tie_2_contactor :
    (self.update context engine1 engine2 apu ext_pwr hydraulic
        elec_overhead).bus_tie_2_contactor =
      Stage.busTie2Final self engine1 engine2 apu ext_pwr elec_overhead := rfl

theorem update_ac_bus_1 :
    (self.update context engine1 engine2 apu ext_pwr hydraulic
        elec_overhead).ac_bus_1 =
      Stage.acBus1 self engine1 engine2 apu ext_pwr elec_overhead := rfl

theorem update_ac_bus_2 :
    (self.update context engine1 engine2 apu ext_pwr hydraulic
        elec_overhead).ac_bus_2 =
      Stage.acBus2 self engine1 engine2 apu ext_pwr elec_overhead := rfl

theorem update_tr_1 :
    (self.update context engine1 engine2 apu ext_pwr hydraulic
        elec_overhead).tr_1 =
      Stage.tr1 self engine1 engine2 apu ext_pwr elec_overhead := rfl

theorem update_tr_2 :
    (self.update context engine1 engine2 apu ext_pwr hydraulic
        elec_overhead).tr_2 =
      Stage.tr2 self engine1 engine2 apu ext_pwr elec_overhead := rfl

theorem update_delay_gate :
    (self.update context engine1 engine2 apu ext_pwr hydraulic
        elec_overhead).ac_ess_feed_contactor_delay_logic_gate =
      Stage.delayGate self context engine1 engine2 apu ext_pwr elec_overhead := rfl

theorem update_ac_ess_feed_contactor_1 :
    (self.update context engine1 engine2 apu ext_pwr hydraulic
        elec_overhead).ac_ess_feed_contactor_1 =
      Stage.acEssFeedContactor1 self context engine1 engine2 apu ext_pwr
        elec_overhead := rfl

theorem update_ac_ess_feed_contactor_2 :
    (self.update context engine1 engine2 apu ext_pwr hydraulic
        elec_overhead).ac_ess_feed_contactor_2 =
      Stage.acEssFeedContactor2 self context engine1 engine2 apu ext_pwr
        elec_overhead := rfl

theorem update_emergency_gen_contactor :
    (self.update context engine1 engine2 apu ext_pwr hydraulic
        elec_overhead).emergency_gen_contactor =
      Stage.emergencyGenContactor self engine1 engine2 apu ext_pwr hydraulic
        elec_overhead := rfl

theorem update_ac_ess_to_tr_ess_contactor :
    (self.update context engine1 engine2 apu ext_pwr hydraulic
        elec_overhead).ac_ess_to_tr_ess_contactor =
      Stage.acEssToTrEssContactor self context engine1 engine2 apu ext_pwr hydraulic
        elec_overhead := rfl

theorem update_ac_ess_bus :
    (self.update context engine1 engine2 apu ext_pwr hydraulic
        elec_overhead).ac_ess_bus =
      Stage.acEssBusFinal self context engine1 engine2 apu ext_pwr hydraulic
        elec_overhead := rfl

theorem update_tr_ess :
    (self.update context engine1 engine2 apu ext_pwr hydraulic
        elec_overhead).tr_ess =
      Stage.trEss self context engine1 engine2 apu ext_pwr hydraulic
        elec_overhead := rfl

theorem update_dc_bus_1 :
    (self.update context engine1 engine2 apu ext_pwr hydraulic
        elec_overhead).dc_bus_1 =
      Stage.dcBus1Final self engine1 engine2 apu ext_pwr elec_overhead := rfl

theorem update_dc_bus_2 :
    (self.update context engine1 engine2 apu ext_pwr hydraulic
        elec_overhead).dc_bus_2 =
      Stage.dcBus2Final self engine1 engine2 apu ext_pwr elec_overhead := rfl

theorem update_dc_bat_bus :
    (self.update context engine1 engine2 apu ext_pwr hydraulic
        elec_overhead).dc_bat_bus =
      Stage.dcBatBus self engine1 engine2 apu ext_pwr elec_overhead := rfl

end Characterization

/-! ## Tick-sequence lemmas -/

theorem updateWith_gate_delay (s : A320ElectricalCircuit) (i : A320SimInputs) :
    (s.updateWith i).ac_ess_feed_contactor_delay_logic_gate.delay =
      s.ac_ess_feed_contactor_delay_logic_gate.delay := rfl

theorem updateWith_gate_expr (s : A320ElectricalCircuit) (i : A320SimInputs) :
    (s.updateWith i).ac_ess_feed_contactor_delay_logic_gate.expression_result =
      (s.updateWith i).ac_bus_1.output.is_unpowered := rfl

theorem updateWith_gate_duration (s : A320ElectricalCircuit) (i : A320SimInputs) :
    (s.updateWith i).ac_ess_feed_contactor_delay_logic_gate.true_duration =
      (if s.ac_ess_feed_contactor_delay_logic_gate.expression_result &&
          (s.updateWith i).ac_bus_1.output.is_unpowered then
        s.ac_ess_feed_contactor_delay_logic_gate.true_duration + i.context.delta
      else 0) := rfl

theorem runTicks_nil (s : A320ElectricalCircuit) : runTicks s [] = s := rfl

theorem runTicks_take_succ (s : A320ElectricalCircuit) (ticks : List A320SimInputs)
    (k : Nat) (hk : k < ticks.length) :
    runTicks s (ticks.take (k + 1)) =
      (runTicks s (ticks.take k)).updateWith (ticks.get ⟨k, hk⟩) := by
  unfold runTicks
  rw [List.take_succ, List.getElem?_eq_getElem hk, List.foldl_append]
  simp [List.get_eq_getElem]

theorem elapsedSince_zero (ticks : List A320SimInputs) : elapsedSince ticks 0 = 0 := by
  simp [elapsedSince]

theorem elapsedSince_succ (ticks : List A320SimInputs) (k : Nat)
    (hk : k + 1 < ticks.length) :
    elapsedSince ticks (k + 1) =
      elapsedSince ticks k + (ticks.get ⟨k + 1, hk⟩).context.delta := by
  have hk' : k < (ticks.drop 1).length := by
    simp [List.length_drop]
    omega
  unfold elapsedSince
  rw [List.take_succ, List.getElem?_eq_getElem hk']
  rw [List.map_append, List.sum_append]
  have h1k : 1 + k = k + 1 := Nat.add_comm 1 k
  simp [List.getElem_drop, List.get_eq_getElem, h1k]

/-- One tick of the AC ESS feed logic: when AC BUS 1 ends the tick unpowered,
AC BUS 2 powered and the AC ESS FEED button is Normal, a false delay-gate
output leaves the AC ESS BUS unpowered, and a true delay-gate output closes
feed contactor 2 and feeds the AC ESS BUS from AC BUS 2. -/
theorem step_acEss (s : A320ElectricalCircuit) (i : A320SimInputs)
    (h1 : (s.updateWith i).ac_bus_1.output.is_unpowered = true)
    (h2 : (s.updateWith i).ac_bus_2.output.is_powered = true)
    (hn : i.elec_overhead.ac_ess_feed.is_normal = true) :
    ((s.updateWith i).ac_ess_feed_contactor_delay_logic_gate.output = false →
      (s.updateWith i).ac_ess_bus.output = Current.none) ∧
    ((s.updateWith i).ac_ess_feed_contactor_delay_logic_gate.output = true →
      (s.updateWith i).ac_ess_feed_contactor_2.state = ContactorState.Closed ∧
      (s.updateWith i).ac_ess_bus.input = (s.updateWith i).ac_bus_2.output) := by
  have ha : i.elec_overhead.ac_ess_feed.is_altn = false := by
    cases hf : i.elec_overhead.ac_ess_feed <;>
      simp_all [NormalAltnPushButton.is_altn, NormalAltnPushButton.is_normal]
  unfold A320ElectricalCircuit.updateWith at h1 h2 ⊢
  rw [update_ac_bus_1, Current.is_unpowered_eq_true_iff] at h1
  rw [update_ac_bus_2] at h2
  rw [update_delay_gate, update_ac_ess_bus, update_ac_ess_feed_contactor_2,
    update_ac_bus_2]
  have hu2 : (Stage.acBus2 s i.engine1 i.engine2 i.apu i.ext_pwr
      i.elec_overhead).output.is_unpowered = false := by
    rw [Current.is_unpowered_eq_not_is_powered, h2]; rfl
  have hc1out : (Stage.acEssFeedContactor1 s i.context i.engine1 i.engine2 i.apu
      i.ext_pwr i.elec_overhead).output = Current.none := by
    rw [Contactor.output_eq]
    simp [Stage.acEssFeedContactor1, h1, Current.is_powered, Current.is_none]
  constructor
  · intro hg
    have hc2out : (Stage.acEssFeedContactor2 s i.context i.engine1 i.engine2 i.apu
        i.ext_pwr i.elec_overhead).output = Current.none := by
      rw [Contactor.output_eq]
      simp [Stage.acEssFeedContactor2, hg, ha]
    have hprim_in : (Stage.acEssBusPrimary s i.context i.engine1 i.engine2 i.apu
        i.ext_pwr i.elec_overhead).input = Current.none := by
      simp only [Stage.acEssBusPrimary, ElectricalBus.input_of_set_input]
      rw [hc1out, hc2out]
      rfl
    have hprim_out : (Stage.acEssBusPrimary s i.context i.engine1 i.engine2 i.apu
        i.ext_pwr i.elec_overhead).output = Current.none := by
      unfold ElectricalBus.output
      rw [hprim_in]
      simp
    have hegct_out : (Stage.emergencyGenContactor s i.engine1 i.engine2 i.apu
        i.ext_pwr i.hydraulic i.elec_overhead).output = Current.none := by
      rw [Contactor.output_eq]
      simp [Stage.emergencyGenContactor, hu2]
    have hattc_out : (Stage.acEssToTrEssContactor s i.context i.engine1 i.engine2
        i.apu i.ext_pwr i.hydraulic i.elec_overhead).output = Current.none := by
      rw [Contactor.output_eq]
      simp only [Stage.acEssToTrEssContactor, Contactor.toggle_input,
        Contactor.set_input_input]
      rw [hprim_out, hegct_out]
      simp
    simp only [Stage.acEssBusFinal, ElectricalBus.output, ElectricalBus.input_of_set_input,
      ElectricalBus.failed_of_set_input]
    rw [hprim_in, hattc_out]
    simp [orPowered, Current.is_unpowered, Current.is_none]
  · intro hg
    have hc2st : (Stage.acEssFeedContactor2 s i.context i.engine1 i.engine2 i.apu
        i.ext_pwr i.elec_overhead).state = ContactorState.Closed := by
      simp [Stage.acEssFeedContactor2, hg, h2]
    have hc2out : (Stage.acEssFeedContactor2 s i.context i.engine1 i.engine2 i.apu
        i.ext_pwr i.elec_overhead).output =
        (Stage.acBus2 s i.engine1 i.engine2 i.apu i.ext_pwr i.elec_overhead).output := by
      rw [Contactor.output_eq, hc2st]
      simp [Stage.acEssFeedContactor2]
    have hprim_in : (Stage.acEssBusPrimary s i.context i.engine1 i.engine2 i.apu
        i.ext_pwr i.elec_overhead).input =
        (Stage.acBus2 s i.engine1 i.engine2 i.apu i.ext_pwr i.elec_overhead).output := by
      simp only [Stage.acEssBusPrimary, ElectricalBus.input_of_set_input]
      rw [hc1out, hc2out]
      cases hc : (Stage.acBus2 s i.engine1 i.engine2 i.apu i.ext_pwr
          i.elec_overhead).output
      · rfl
      · rfl
      · simp_all [Current.is_powered, Current.is_none]
    refine ⟨hc2st, ?_⟩
    simp only [Stage.acEssBusFinal, ElectricalBus.input_of_set_input]
    rw [hprim_in]
    simp [orPowered, hu2]

/-- Invariant of the AC ESS feed delay gate along a tick sequence in which
AC BUS 1 is unpowered at the end of every tick and the gate stored a false
expression before tick 0: afterwards the stored expression is true, the
accumulated duration equals the elapsed time since tick 0 (tick 0's delta is
not counted), and the delay is unchanged. -/
theorem gate_invariant (s₀ : A320ElectricalCircuit) (ticks : List A320SimInputs)
    (hgate : s₀.ac_ess_feed_contactor_delay_logic_gate.expression_result = false)
    (hcond : ∀ k (hk : k < ticks.length),
      (runTicks s₀ (ticks.take (k + 1))).ac_bus_1.output.is_unpowered = true) :
    ∀ k (hk : k < ticks.length),
      (runTicks s₀
            (ticks.take (k + 1))).ac_ess_feed_contactor_delay_logic_gate.expression_result =
          true ∧
      (runTicks s₀
            (ticks.take (k + 1))).ac_ess_feed_contactor_delay_logic_gate.true_duration =
          elapsedSince ticks k ∧
      (runTicks s₀ (ticks.take (k + 1))).ac_ess_feed_contactor_delay_logic_gate.delay =
          s₀.ac_ess_feed_contactor_delay_logic_gate.delay := by
  intro k
  induction k with
  | zero =>
      intro hk
      have hc := hcond 0 hk
      rw [runTicks_take_succ s₀ ticks 0 hk, List.take_zero, runTicks_nil] at hc ⊢
      refine ⟨?_, ?_, ?_⟩
      · rw [updateWith_gate_expr]
        exact hc
      · rw [updateWith_gate_duration, hgate, elapsedSince_zero]
        simp
      · rw [updateWith_gate_delay]
  | succ k ih =>
      intro hk
      have hk' : k < ticks.length := Nat.lt_of_succ_lt hk
      have IH := ih hk'
      have hc := hcond (k + 1) hk
      rw [runTicks_take_succ s₀ ticks (k + 1) hk] at hc ⊢
      refine ⟨?_, ?_, ?_⟩
      · rw [updateWith_gate_expr]
        exact hc
      · rw [updateWith_gate_duration, IH.1, hc, IH.2.1, elapsedSince_succ ticks k hk]
        simp
      · rw [updateWith_gate_delay]
        exact IH.2.2

/-! ## Claim theorems -/

/-- Claim C3: for every `DelayedTrueLogicGate` state and every call
`update(dt, expr)`, the new `true_duration` is the old one plus `dt` exactly
when the stored `expression_result` and the incoming `expr` are both true and
0 otherwise; `expr` is recorded as the new `expression_result`; and `output()`
returns true if and only if the stored `expression_result` is true and
`delay ≤ true_duration`. -/
theorem claim_C3_delayed_gate_contract (g : DelayedTrueLogicGate)
    (context : UpdateContext) (e : Bool) :
    (g.update context e).true_duration =
        (if g.expression_result && e then g.true_duration + context.delta else 0) ∧
    (g.update context e).expression_result = e ∧
    (g.output = true ↔ (g.expression_result = true ∧ g.delay ≤ g.true_duration)) := by
  refine ⟨rfl, rfl, ?_⟩
  simp [DelayedTrueLogicGate.output]

/-- Witness for C3: the contract instantiated on a fresh 3 s gate updated with
`dt = 1` and a true input. -/
theorem claim_C3_delayed_gate_contract_witness :
    ((DelayedTrueLogicGate.new 3).update { delta := 1 } true).true_duration =
        (if (DelayedTrueLogicGate.new 3).expression_result && true then
          (DelayedTrueLogicGate.new 3).true_duration + ({ delta := 1 } :
            UpdateContext).delta
        else 0) ∧
    ((DelayedTrueLogicGate.new 3).update { delta := 1 } true).expression_result =
        true ∧
    ((DelayedTrueLogicGate.new 3).output = true ↔
      ((DelayedTrueLogicGate.new 3).expression_result = true ∧
        (DelayedTrueLogicGate.new 3).delay ≤ (DelayedTrueLogicGate.new 3).true_duration)) :=
  claim_C3_delayed_gate_contract (DelayedTrueLogicGate.new 3) { delta := 1 } true

/-- Claim C4: along every tick sequence in which AC BUS 1 is unpowered from
tick 0 on (tick 0 being the moment the bus became unpowered: the gate still
stores a false sample from before, and elapsed time is counted from tick 0),
AC BUS 2 stays powered and the AC ESS FEED button stays Normal, the AC ESS BUS
output is unpowered at every tick whose elapsed time is below 3 s, and at
every tick with elapsed time at least 3 s feed contactor 2 is closed and the
AC ESS BUS input is AC BUS 2's output (the bus is fed from AC BUS 2). The
delay of the gate is the A320 constant 3 s. -/
theorem claim_C4_ac_ess_transfer_delay (s₀ : A320ElectricalCircuit)
    (ticks : List A320SimInputs)
    (hgate : s₀.ac_ess_feed_contactor_delay_logic_gate.expression_result = false)
    (hdelay : s₀.ac_ess_feed_contactor_delay_logic_gate.delay =
      acEssFeedToAcBus2DelayInSeconds)
    (_hdt : ∀ t ∈ ticks, 0 ≤ t.context.delta)
    (hcond : ∀ k (hk : k < ticks.length),
      (runTicks s₀ (ticks.take (k + 1))).ac_bus_1.output.is_unpowered = true ∧
      (runTicks s₀ (ticks.take (k + 1))).ac_bus_2.output.is_powered = true ∧
      (ticks.get ⟨k, hk⟩).elec_overhead.ac_ess_feed.is_normal = true) :
    ∀ k (hk : k < ticks.length),
      (elapsedSince ticks k < 3 →
        (runTicks s₀ (ticks.take (k + 1))).ac_ess_bus.output = Current.none) ∧
      (3 ≤ elapsedSince ticks k →
        (runTicks s₀ (ticks.take (k + 1))).ac_ess_feed_contactor_2.state =
            ContactorState.Closed ∧
        (runTicks s₀ (ticks.take (k + 1))).ac_ess_bus.input =
            (runTicks s₀ (ticks.take (k + 1))).ac_bus_2.output) := by
  intro k hk
  have hinv := gate_invariant s₀ ticks hgate (fun j hj => (hcond j hj).1) k hk
  have hc := hcond k hk
  rw [runTicks_take_succ s₀ ticks k hk] at hinv hc ⊢
  have hstep := step_acEss (runTicks s₀ (ticks.take k)) (ticks.get ⟨k, hk⟩)
    hc.1 hc.2.1 hc.2.2
  have hout :
      ((runTicks s₀ (ticks.take k)).updateWith
          (ticks.get ⟨k, hk⟩)).ac_ess_feed_contactor_delay_logic_gate.output =
        decide (3 ≤ elapsedSince ticks k) := by
    unfold DelayedTrueLogicGate.output
    rw [hinv.1, hinv.2.1, hinv.2.2, hdelay]
    simp [acEssFeedToAcBus2DelayInSeconds]
  constructor
  · intro hlt
    apply hstep.1
    rw [hout]
    exact decide_eq_false (not_le.mpr hlt)
  · intro hge
    exact hstep.2 (by rw [hout]; exact decide_eq_true hge)

/-- Witness for C4: a circuit with a failed AC BUS 1 and both engines running;
after a tick at t = 0 and a tick 3 s later, the AC ESS BUS is fed from
AC BUS 2, while at t = 0 it was unpowered. -/
theorem claim_C4_ac_ess_transfer_delay_witness :
    (elapsedSince [bothEnginesTick 0, bothEnginesTick 3] 0 < 3 ∧
      (runTicks acBus1FailedCircuit
          ([bothEnginesTick 0, bothEnginesTick 3].take 1)).ac_ess_bus.output =
        Current.none) ∧
    (3 ≤ elapsedSince [bothEnginesTick 0, bothEnginesTick 3] 1 ∧
      (runTicks acBus1FailedCircuit
            ([bothEnginesTick 0, bothEnginesTick 3].take 2)).ac_ess_feed_contactor_2.state =
          ContactorState.Closed ∧
      (runTicks acBus1FailedCircuit
            ([bothEnginesTick 0, bothEnginesTick 3].take 2)).ac_ess_bus.input =
        (runTicks acBus1FailedCircuit
            ([bothEnginesTick 0, bothEnginesTick 3].take 2)).ac_bus_2.output) :=
  ⟨⟨by norm_num [elapsedSince, bothEnginesTick],
    (claim_C4_ac_ess_transfer_delay acBus1FailedCircuit
        [bothEnginesTick 0, bothEnginesTick 3] rfl rfl (by decide) (by decide) 0
        (by norm_num)).1
      (by norm_num [elapsedSince, bothEnginesTick])⟩,
    by norm_num [elapsedSince, bothEnginesTick],
    (claim_C4_ac_ess_transfer_delay acBus1FailedCircuit
        [bothEnginesTick 0, bothEnginesTick 3] rfl rfl (by decide) (by decide) 1
        (by norm_num)).2
      (by norm_num [elapsedSince, bothEnginesTick])⟩

/-- Claim C5: a gate whose stored `expression_result` is false accumulates no
duration from the tick in which the input becomes true, whatever that tick's
non-negative `dt`; hence with a positive delay the output is false on that
tick. -/
theorem claim_C5_no_spurious_advance (g : DelayedTrueLogicGate)
    (context : UpdateContext) (h : g.expression_result = false)
    (_hdt : 0 ≤ context.delta) :
    (g.update context true).true_duration = 0 ∧
    (0 < g.delay → (g.update context true).output = false) := by
  constructor
  · simp [DelayedTrueLogicGate.update, h]
  · intro hd
    simp [DelayedTrueLogicGate.update, DelayedTrueLogicGate.output, h, hd.not_le]

/-- Witness for C5: a fresh gate with delay 1 s, updated with `dt = 9` and a
true input, has duration 0 and a false output. -/
theorem claim_C5_no_spurious_advance_witness :
    (DelayedTrueLogicGate.new 1).expression_result = false ∧ (0 : ℚ) ≤ 9 ∧
    (((DelayedTrueLogicGate.new 1).update { delta := 9 } true).true_duration = 0 ∧
      (0 < (DelayedTrueLogicGate.new 1).delay →
        ((DelayedTrueLogicGate.new 1).update { delta := 9 } true).output = false)) :=
  ⟨rfl, by norm_num,
    claim_C5_no_spurious_advance (DelayedTrueLogicGate.new 1) { delta := 9 } rfl
      (by norm_num)⟩

/-- Claim C7 (amended): `EngineGenerator::update` sets the output to
`Alternating(EngineGenerator(n), 400 Hz, 115 V, 782.60 A)` precisely when
`engine.n2 > 57.5 %`, and to `None` otherwise, without consulting any overhead
pushbutton (the GEN n button is applied later, in
`A320ElectricalCircuit::update`'s `gen_n_provides_power` decision). -/
theorem claim_C7_engine_generator_update (g : EngineGenerator) (engine : Engine)
    (idg : OnOffPushButton) :
    ((g.update engine idg).output =
      if engineN2PowerOutputThreshold < engine.n2 then
        Current.alternating (PowerSource.engineGenerator g.number) 400 115 782.60
      else Current.none) ∧
    (∀ idg₂ : OnOffPushButton, g.update engine idg = g.update engine idg₂) := by
  constructor
  · rw [← nominalAlternating_eq]
    unfold EngineGenerator.update
    split
    · rfl
    · rfl
  · intro idg₂
    rfl

/-- Witness for C7 (amended): the update contract instantiated at 60 % N2. -/
theorem claim_C7_engine_generator_update_witness :
    ((EngineGenerator.new 1).update { n2 := 60 } OnOffPushButton.On).output =
        (if engineN2PowerOutputThreshold < ({ n2 := 60 } : Engine).n2 then
          Current.alternating (PowerSource.engineGenerator (EngineGenerator.new 1).number)
            400 115 782.60
        else Current.none) ∧
    (∀ idg₂ : OnOffPushButton,
      (EngineGenerator.new 1).update { n2 := 60 } OnOffPushButton.On =
        (EngineGenerator.new 1).update { n2 := 60 } idg₂) :=
  claim_C7_engine_generator_update (EngineGenerator.new 1) { n2 := 60 }
    OnOffPushButton.On

/-- Counterexample for C7 as stated: with every overhead button Off (so the
GEN 1 button is not on) and `n2 = 60 % > 57.5 %`, the claim requires the
updated output to be `None`, but `EngineGenerator::update` produces the
nominal alternating output: the update never reads the button. -/
theorem claim_C7_counterexample :
    OnOffPushButton.Off.is_on = false ∧
    ((EngineGenerator.new 1).update { n2 := 60 } OnOffPushButton.Off).output ≠
      Current.none := by
  constructor
  · rfl
  · decide

/-- Claim C8: feeder resolution (`Powerable::powered_by`) yields the output of
the first feeder whose output is not `Current::None`; it yields `Current::None`
for the empty list and whenever every feeder output is `Current::None`. -/
theorem claim_C8_powered_by_first_feeder :
    firstPowered [] = Current.none ∧
    (∀ sources : List Current,
      (∀ c ∈ sources, c = Current.none) → firstPowered sources = Current.none) ∧
    (∀ (pre : List Current) (c : Current) (post : List Current),
      (∀ d ∈ pre, d = Current.none) → c ≠ Current.none →
      firstPowered (pre ++ c :: post) = c) := by
  refine ⟨rfl, ?_, ?_⟩
  · intro sources h
    induction sources with
    | nil => rfl
    | cons a rest ih =>
        rw [h a (List.mem_cons_self a rest)]
        exact ih fun d hd => h d (List.mem_cons_of_mem a hd)
  · intro pre c post hpre hc
    induction pre with
    | nil => exact firstPowered_cons_of_ne c post hc
    | cons a rest ih =>
        rw [List.cons_append, hpre a (List.mem_cons_self a rest)]
        exact ih fun d hd => hpre d (List.mem_cons_of_mem a hd)

/-- Witness for C8: a powered feeder preceded by an unpowered one is selected. -/
theorem claim_C8_powered_by_first_feeder_witness :
    firstPowered
        [Current.none, nominalAlternating PowerSource.apuGenerator, Current.none] =
      nominalAlternating PowerSource.apuGenerator :=
  claim_C8_powered_by_first_feeder.2.2 [Current.none]
    (nominalAlternating PowerSource.apuGenerator) [Current.none]
    (by intro d hd; simpa using hd) (by decide)

/-- Claim C1 (amended): after every `A320ElectricalCircuit::update`, writing
`Gn` for "GEN n button on and engine generator n output powered":
(a) if `G1` and `G2`, the APU and external power contactors are open and no AC
bus output (AC BUS 1, AC BUS 2, AC ESS BUS) has source `ApuGenerator` or
`External`; (b) if exactly one of `G1`, `G2` holds and external power is
available (EXT PWR button on, output powered), external power feeds the input
of the AC bus not fed by that engine generator, and the APU generator contactor
stays open (so the APU feeds no bus); (c) if external power and the APU
generator are both available and neither `G1` nor `G2` holds, then — provided
AC BUS 1 and AC BUS 2 have no injected failure — both AC bus outputs have
source `External`. -/
theorem claim_C1_ac_source_priority (s : A320ElectricalCircuit)
    (context : UpdateContext) (engine1 engine2 : Engine)
    (apu : AuxiliaryPowerUnit) (ext_pwr : ExternalPowerSource)
    (hydraulic : A320HydraulicCircuit) (panel : A320ElectricalOverheadPanel)
    (s' : A320ElectricalCircuit)
    (hs : s' = s.update context engine1 engine2 apu ext_pwr hydraulic panel) :
    ((panel.gen_1.is_on && s'.engine_1_gen.output.is_powered) = true →
      (panel.gen_2.is_on && s'.engine_2_gen.output.is_powered) = true →
      s'.apu_gen_contactor.state = ContactorState.Open ∧
      s'.ext_pwr_contactor.state = ContactorState.Open ∧
      okSource s'.ac_bus_1.output ∧ okSource s'.ac_bus_2.output ∧
      okSource s'.ac_ess_bus.output) ∧
    (((panel.gen_1.is_on && s'.engine_1_gen.output.is_powered) ^^
        (panel.gen_2.is_on && s'.engine_2_gen.output.is_powered)) = true →
      (panel.ext_pwr.is_on && ext_pwr.output.is_powered) = true →
      ((panel.gen_1.is_on && s'.engine_1_gen.output.is_powered) = true →
        s'.ac_bus_2.input = ext_pwr.output) ∧
      ((panel.gen_2.is_on && s'.engine_2_gen.output.is_powered) = true →
        s'.ac_bus_1.input = ext_pwr.output) ∧
      s'.apu_gen_contactor.state = ContactorState.Open) ∧
    ((panel.ext_pwr.is_on && ext_pwr.output.is_powered) = true →
      (panel.apu_gen.is_on && s'.apu_gen.output.is_powered) = true →
      (panel.gen_1.is_on && s'.engine_1_gen.output.is_powered) = false →
      (panel.gen_2.is_on && s'.engine_2_gen.output.is_powered) = false →
      s.ac_bus_1.failed = false → s.ac_bus_2.failed = false →
      s'.ac_bus_1.output.source = PowerSource.external ∧
      s'.ac_bus_2.output.source = PowerSource.external) := by
  subst hs
  rw [update_engine_1_gen, update_engine_2_gen, update_apu_gen,
    update_apu_gen_contactor, update_ext_pwr_contactor, update_ac_bus_1,
    update_ac_bus_2, update_ac_ess_bus]
  refine ⟨?_, ?_, ?_⟩
  · intro hG1 hG2
    have hg1 : Stage.gen1ProvidesPower s engine1 panel = true := hG1
    have hg2 : Stage.gen2ProvidesPower s engine2 panel = true := hG2
    have hext : Stage.extPwrProvidesPower s engine1 engine2 ext_pwr panel = false := by
      simp [Stage.extPwrProvidesPower, Stage.noEngineGenProvidesPower,
        Stage.onlyOneEngineGenIsPowered, hg1, hg2]
    have hapu : Stage.apuGenProvidesPower s engine1 engine2 apu ext_pwr panel =
        false := by
      simp [Stage.apuGenProvidesPower, Stage.noEngineGenProvidesPower,
        Stage.onlyOneEngineGenIsPowered, hg1, hg2]
    have haout : (Stage.apuGenContactor s engine1 engine2 apu ext_pwr panel).output =
        Current.none := by
      rw [Contactor.output_eq]
      simp [Stage.apuGenContactor, hapu]
    have heout : (Stage.extPwrContactor s engine1 engine2 ext_pwr panel).output =
        Current.none := by
      rw [Contactor.output_eq]
      simp [Stage.extPwrContactor, hext]
    have ok_g1 : okSource (Stage.engine1Gen s engine1 panel).output := by
      rcases EngineGenerator.update_output_cases s.engine_1_gen engine1 panel.idg_1
        with h | h
      · rw [Stage.engine1Gen, h]; exact okSource_nominal_engine _
      · rw [Stage.engine1Gen, h]; exact okSource_none
    have ok_g2 : okSource (Stage.engine2Gen s engine2 panel).output := by
      rcases EngineGenerator.update_output_cases s.engine_2_gen engine2 panel.idg_2
        with h | h
      · rw [Stage.engine2Gen, h]; exact okSource_nominal_engine _
      · rw [Stage.engine2Gen, h]; exact okSource_none
    have ok_e1ct : okSource (Stage.engine1GenContactor s engine1 panel).output := by
      apply okSource_contactor_output
      simpa [Stage.engine1GenContactor] using ok_g1
    have ok_e2ct : okSource (Stage.engine2GenContactor s engine2 panel).output := by
      apply okSource_contactor_output
      simpa [Stage.engine2GenContactor] using ok_g2
    have ok_t1p_in :
        okSource (Stage.busTie1Primary s engine1 engine2 apu ext_pwr panel).input := by
      simp only [Stage.busTie1Primary, Contactor.set_input_input]
      exact okSource_firstPowered_three _ _ _ ok_e1ct
        (by rw [haout]; exact okSource_none) (by rw [heout]; exact okSource_none)
    have ok_t2p_in :
        okSource (Stage.busTie2Primary s engine1 engine2 apu ext_pwr panel).input := by
      simp only [Stage.busTie2Primary, Contactor.set_input_input]
      exact okSource_firstPowered_three _ _ _ ok_e2ct
        (by rw [haout]; exact okSource_none) (by rw [heout]; exact okSource_none)
    have ok_t2p :
        okSource (Stage.busTie2Primary s engine1 engine2 apu ext_pwr panel).output :=
      okSource_contactor_output _ ok_t2p_in
    have ok_t1f :
        okSource (Stage.busTie1Final s engine1 engine2 apu ext_pwr panel).output := by
      apply okSource_contactor_output
      simp only [Stage.busTie1Final, Contactor.set_input_input]
      exact okSource_orPowered_one _ _ ok_t1p_in ok_t2p
    have ok_t2f :
        okSource (Stage.busTie2Final s engine1 engine2 apu ext_pwr panel).output := by
      apply okSource_contactor_output
      simp only [Stage.busTie2Final, Contactor.set_input_input]
      exact okSource_orPowered_one _ _ ok_t2p_in ok_t1f
    have ok_b1 : okSource (Stage.acBus1 s engine1 engine2 apu ext_pwr panel).output := by
      apply okSource_bus_output
      simp only [Stage.acBus1, ElectricalBus.input_of_set_input]
      exact okSource_firstPowered_two _ _ ok_e1ct ok_t1f
    have ok_b2 : okSource (Stage.acBus2 s engine1 engine2 apu ext_pwr panel).output := by
      apply okSource_bus_output
      simp only [Stage.acBus2, ElectricalBus.input_of_set_input]
      exact okSource_firstPowered_two _ _ ok_e2ct ok_t2f
    have ok_fc1 : okSource
        (Stage.acEssFeedContactor1 s context engine1 engine2 apu ext_pwr panel).output := by
      apply okSource_contactor_output
      simp only [Stage.acEssFeedContactor1, Contactor.set_input_input]
      exact okSource_firstPowered_one _ ok_b1
    have ok_fc2 : okSource
        (Stage.acEssFeedContactor2 s context engine1 engine2 apu ext_pwr panel).output := by
      apply okSource_contactor_output
      simp only [Stage.acEssFeedContactor2, Contactor.set_input_input]
      exact okSource_firstPowered_one _ ok_b2
    have ok_essp_in : okSource
        (Stage.acEssBusPrimary s context engine1 engine2 apu ext_pwr panel).input := by
      simp only [Stage.acEssBusPrimary, ElectricalBus.input_of_set_input]
      exact okSource_firstPowered_two _ _ ok_fc1 ok_fc2
    have ok_essp : okSource
        (Stage.acEssBusPrimary s context engine1 engine2 apu ext_pwr panel).output :=
      okSource_bus_output _ ok_essp_in
    have ok_eg : okSource (Stage.emergencyGen s hydraulic).output := by
      rcases EmergencyGenerator.output_cases (Stage.emergencyGen s hydraulic) with h | h
      · rw [h]; exact okSource_nominal_emergency
      · rw [h]; exact okSource_none
    have ok_egct : okSource
        (Stage.emergencyGenContactor s engine1 engine2 apu ext_pwr hydraulic
          panel).output := by
      apply okSource_contactor_output
      simp only [Stage.emergencyGenContactor, Contactor.set_input_input]
      exact okSource_firstPowered_one _ ok_eg
    have ok_attc : okSource
        (Stage.acEssToTrEssContactor s context engine1 engine2 apu ext_pwr hydraulic
          panel).output := by
      apply okSource_contactor_output
      simp only [Stage.acEssToTrEssContactor, Contactor.toggle_input,
        Contactor.set_input_input]
      exact okSource_firstPowered_two _ _ ok_essp ok_egct
    have ok_essf : okSource
        (Stage.acEssBusFinal s context engine1 engine2 apu ext_pwr hydraulic
          panel).output := by
      apply okSource_bus_output
      simp only [Stage.acEssBusFinal, ElectricalBus.input_of_set_input]
      exact okSource_orPowered_one _ _ ok_essp_in ok_attc
    refine ⟨?_, ?_, ok_b1, ok_b2, ok_essf⟩
    · simp [Stage.apuGenContactor, hapu]
    · simp [Stage.extPwrContactor, hext]
  · intro hone hext
    have hone' : Stage.onlyOneEngineGenIsPowered s engine1 engine2 panel = true := hone
    have hxp : ext_pwr.output.is_powered = true := by simp_all
    have hxu : ext_pwr.output.is_unpowered = false := by
      rw [Current.is_unpowered_eq_not_is_powered, hxp]; rfl
    have hextp : Stage.extPwrProvidesPower s engine1 engine2 ext_pwr panel = true := by
      simp [Stage.extPwrProvidesPower, hext, hone']
    have hapup : Stage.apuGenProvidesPower s engine1 engine2 apu ext_pwr panel =
        false := by
      simp [Stage.apuGenProvidesPower, hextp]
    have haoe : Stage.apuOrExtPwrProvidesPower s engine1 engine2 apu ext_pwr panel =
        true := by
      simp [Stage.apuOrExtPwrProvidesPower, hextp]
    have haout : (Stage.apuGenContactor s engine1 engine2 apu ext_pwr panel).output =
        Current.none := by
      rw [Contactor.output_eq]
      simp [Stage.apuGenContactor, hapup]
    have hxout : (Stage.extPwrContactor s engine1 engine2 ext_pwr panel).output =
        ext_pwr.output := by
      rw [Contactor.output_eq]
      simp [Stage.extPwrContactor, hextp]
    refine ⟨?_, ?_, ?_⟩
    · intro hg1
      have hg1' : Stage.gen1ProvidesPower s engine1 panel = true := hg1
      have hg2' : Stage.gen2ProvidesPower s engine2 panel = false := by
        have := hone'
        simp only [Stage.onlyOneEngineGenIsPowered, hg1'] at this
        simpa using this
      simp only [Stage.acBus2, ElectricalBus.input_of_set_input]
      have he2 : (Stage.engine2GenContactor s engine2 panel).output =
          Current.none := by
        rw [Contactor.output_eq]
        simp [Stage.engine2GenContactor, hg2']
      have ht2in : (Stage.busTie2Primary s engine1 engine2 apu ext_pwr panel).input =
          ext_pwr.output := by
        simp only [Stage.busTie2Primary, Contactor.set_input_input]
        rw [he2, haout, hxout]
        simp
      have ht2st : (Stage.busTie2Primary s engine1 engine2 apu ext_pwr panel).state =
          ContactorState.Closed := by
        simp [Stage.busTie2Primary, haoe, hg2']
      have ht2f : (Stage.busTie2Final s engine1 engine2 apu ext_pwr panel).output =
          ext_pwr.output := by
        rw [Contactor.output_eq]
        simp only [Stage.busTie2Final, Contactor.set_input_input,
          Contactor.set_input_state, ht2st, ht2in]
        simp [orPowered, hxu]
      rw [he2, ht2f]
      cases hc : ext_pwr.output
      · simp [firstPowered]
      · simp [firstPowered]
      · simp_all [Current.is_powered, Current.is_none]
    · intro hg2
      have hg2' : Stage.gen2ProvidesPower s engine2 panel = true := hg2
      have hg1' : Stage.gen1ProvidesPower s engine1 panel = false := by
        have := hone'
        simp only [Stage.onlyOneEngineGenIsPowered, hg2'] at this
        simpa using this
      simp only [Stage.acBus1, ElectricalBus.input_of_set_input]
      have he1 : (Stage.engine1GenContactor s engine1 panel).output =
          Current.none := by
        rw [Contactor.output_eq]
        simp [Stage.engine1GenContactor, hg1']
      have ht1in : (Stage.busTie1Primary s engine1 engine2 apu ext_pwr panel).input =
          ext_pwr.output := by
        simp only [Stage.busTie1Primary, Contactor.set_input_input]
        rw [he1, haout, hxout]
        simp
      have ht1st : (Stage.busTie1Primary s engine1 engine2 apu ext_pwr panel).state =
          ContactorState.Closed := by
        simp [Stage.busTie1Primary, haoe, hg1']
      have ht1f : (Stage.busTie1Final s engine1 engine2 apu ext_pwr panel).output =
          ext_pwr.output := by
        rw [Contactor.output_eq]
        simp only [Stage.busTie1Final, Contactor.set_input_input,
          Contactor.set_input_state, ht1st, ht1in]
        simp [orPowered, hxu]
      rw [he1, ht1f]
      cases hc : ext_pwr.output
      · simp [firstPowered]
      · simp [firstPowered]
      · simp_all [Current.is_powered, Current.is_none]
    · simp [Stage.apuGenContactor, hapup]
  · intro hext hapu hg1 hg2 hf1 hf2
    have hg1' : Stage.gen1ProvidesPower s engine1 panel = false := hg1
    have hg2' : Stage.gen2ProvidesPower s engine2 panel = false := hg2
    have hxp : ext_pwr.output.is_powered = true := by simp_all
    have hxu : ext_pwr.output.is_unpowered = false := by
      rw [Current.is_unpowered_eq_not_is_powered, hxp]; rfl
    have hxnom : ext_pwr.output = nominalAlternating PowerSource.external :=
      ExternalPowerSource.output_of_powered ext_pwr hxp
    have hextp : Stage.extPwrProvidesPower s engine1 engine2 ext_pwr panel = true := by
      simp [Stage.extPwrProvidesPower, Stage.noEngineGenProvidesPower, hext, hg1',
        hg2']
    have hapup : Stage.apuGenProvidesPower s engine1 engine2 apu ext_pwr panel =
        false := by
      simp [Stage.apuGenProvidesPower, hextp]
    have haoe : Stage.apuOrExtPwrProvidesPower s engine1 engine2 apu ext_pwr panel =
        true := by
      simp [Stage.apuOrExtPwrProvidesPower, hextp]
    have haout : (Stage.apuGenContactor s engine1 engine2 apu ext_pwr panel).output =
        Current.none := by
      rw [Contactor.output_eq]
      simp [Stage.apuGenContactor, hapup]
    have hxout : (Stage.extPwrContactor s engine1 engine2 ext_pwr panel).output =
        ext_pwr.output := by
      rw [Contactor.output_eq]
      simp [Stage.extPwrContactor, hextp]
    have he1 : (Stage.engine1GenContactor s engine1 panel).output = Current.none := by
      rw [Contactor.output_eq]
      simp [Stage.engine1GenContactor, hg1']
    have he2 : (Stage.engine2GenContactor s engine2 panel).output = Current.none := by
      rw [Contactor.output_eq]
      simp [Stage.engine2GenContactor, hg2']
    have ht1in : (Stage.busTie1Primary s engine1 engine2 apu ext_pwr panel).input =
        ext_pwr.output := by
      simp only [Stage.busTie1Primary, Contactor.set_input_input]
      rw [he1, haout, hxout]
      simp
    have ht2in : (Stage.busTie2Primary s engine1 engine2 apu ext_pwr panel).input =
        ext_pwr.output := by
      simp only [Stage.busTie2Primary, Contactor.set_input_input]
      rw [he2, haout, hxout]
      simp
    have ht1st : (Stage.busTie1Primary s engine1 engine2 apu ext_pwr panel).state =
        ContactorState.Closed := by
      simp [Stage.busTie1Primary, haoe, hg1']
    have ht2st : (Stage.busTie2Primary s engine1 engine2 apu ext_pwr panel).state =
        ContactorState.Closed := by
      simp [Stage.busTie2Primary, haoe, hg2']
    have ht1f : (Stage.busTie1Final s engine1 engine2 apu ext_pwr panel).output =
        ext_pwr.output := by
      rw [Contactor.output_eq]
      simp only [Stage.busTie1Final, Contactor.set_input_input,
        Contactor.set_input_state, ht1st, ht1in]
      simp [orPowered, hxu]
    have ht2f : (Stage.busTie2Final s engine1 engine2 apu ext_pwr panel).output =
        ext_pwr.output := by
      rw [Contactor.output_eq]
      simp only [Stage.busTie2Final, Contactor.set_input_input,
        Contactor.set_input_state, ht2st, ht2in]
      simp [orPowered, hxu]
    constructor
    · simp only [Stage.acBus1, ElectricalBus.output, ElectricalBus.input_of_set_input,
        ElectricalBus.failed_of_set_input, hf1]
      rw [he1, ht1f, hxnom]
      simp [firstPowered, nominalAlternating, Current.source]
    · simp only [Stage.acBus2, ElectricalBus.output, ElectricalBus.input_of_set_input,
        ElectricalBus.failed_of_set_input, hf2]
      rw [he2, ht2f, hxnom]
      simp [firstPowered, nominalAlternating, Current.source]

/-- Witness for C1: with external power and the APU both available, no engine
generator providing power and no bus failure, both AC buses show `External`
(clause (c) of the claim, instantiated). -/
theorem claim_C1_ac_source_priority_witness :
    (A320ElectricalCircuit.new.updateWith (extAndApuTick 1)).ac_bus_1.output.source =
        PowerSource.external ∧
    (A320ElectricalCircuit.new.updateWith (extAndApuTick 1)).ac_bus_2.output.source =
        PowerSource.external :=
  (claim_C1_ac_source_priority A320ElectricalCircuit.new (extAndApuTick 1).context
      (extAndApuTick 1).engine1 (extAndApuTick 1).engine2 (extAndApuTick 1).apu
      (extAndApuTick 1).ext_pwr (extAndApuTick 1).hydraulic
      (extAndApuTick 1).elec_overhead
      (A320ElectricalCircuit.new.updateWith (extAndApuTick 1)) rfl).2.2
    (by decide) (by decide) (by decide) (by decide) rfl rfl

/-- Counterexample for C1 as stated: with external power and the APU available,
no engine generator providing power, but an injected AC BUS 1 failure, AC
BUS 1's output does not have source `External` (it is unpowered), so the
claim's third clause fails without the no-failure proviso. -/
theorem claim_C1_counterexample :
    ((extAndApuTick 1).elec_overhead.ext_pwr.is_on &&
        (extAndApuTick 1).ext_pwr.output.is_powered) = true ∧
    ((extAndApuTick 1).elec_overhead.apu_gen.is_on &&
        (acBus1FailedCircuit.updateWith (extAndApuTick 1)).apu_gen.output.is_powered) =
      true ∧
    ((extAndApuTick 1).elec_overhead.gen_1.is_on &&
        (acBus1FailedCircuit.updateWith
            (extAndApuTick 1)).engine_1_gen.output.is_powered) = false ∧
    ((extAndApuTick 1).elec_overhead.gen_2.is_on &&
        (acBus1FailedCircuit.updateWith
            (extAndApuTick 1)).engine_2_gen.output.is_powered) = false ∧
    (acBus1FailedCircuit.updateWith (extAndApuTick 1)).ac_bus_1.output.source ≠
      PowerSource.external :=
  ⟨by decide, by decide, by decide, by decide, by decide⟩

/-- Claim C2 (amended): for every tick after which AC BUS 1 and AC BUS 2 are
both unpowered, with the emergency generator started and blue hydraulic
pressure present, and provided the AC ESS BUS and the TR ESS have no injected
failure, the AC ESS BUS and TR ESS outputs have source `EmergencyGenerator`
and the DC BUS 1, DC BUS 2 and DC BAT BUS outputs are unpowered. -/
theorem claim_C2_emergency_path (s : A320ElectricalCircuit)
    (context : UpdateContext) (engine1 engine2 : Engine)
    (apu : AuxiliaryPowerUnit) (ext_pwr : ExternalPowerSource)
    (hydraulic : A320HydraulicCircuit) (panel : A320ElectricalOverheadPanel)
    (s' : A320ElectricalCircuit)
    (hs : s' = s.update context engine1 engine2 apu ext_pwr hydraulic panel)
    (h1 : s'.ac_bus_1.output.is_unpowered = true)
    (h2 : s'.ac_bus_2.output.is_unpowered = true)
    (hr : s.emergency_gen.running = true)
    (hb : hydraulic.is_blue_pressurised = true)
    (hef : s.ac_ess_bus.failed = false)
    (htf : s.tr_ess.failed = false) :
    s'.ac_ess_bus.output.source = PowerSource.emergencyGenerator ∧
    s'.tr_ess.output.source = PowerSource.emergencyGenerator ∧
    s'.dc_bus_1.output.is_unpowered = true ∧
    s'.dc_bus_2.output.is_unpowered = true ∧
    s'.dc_bat_bus.output.is_unpowered = true := by
  subst hs
  rw [update_ac_bus_1, Current.is_unpowered_eq_true_iff] at h1
  rw [update_ac_bus_2, Current.is_unpowered_eq_true_iff] at h2
  rw [update_ac_ess_bus, update_tr_ess, update_dc_bus_1, update_dc_bus_2,
    update_dc_bat_bus]
  simp only [Stage.acEssBusFinal, Stage.acEssBusPrimary, Stage.acEssFeedContactor1,
    Stage.acEssFeedContactor2, Stage.acEssToTrEssContactor,
    Stage.emergencyGenContactor, Stage.emergencyGen, Stage.tr1, Stage.tr2,
    Stage.trEss, Stage.delayGate, Stage.dcBus1Final, Stage.dcBus2Final,
    Stage.dcBus1Primary, Stage.dcBus2Primary, Stage.dcTie1Final, Stage.dcTie2Final,
    Stage.dcTie1Stage, Stage.dcTie2Stage, Stage.dcBatBus]
  simp only [h1, h2]
  simp [hr, hb, hef, htf, EmergencyGenerator.update, EmergencyGenerator.output,
    TransformerRectifier.set_input, TransformerRectifier.output,
    TransformerRectifier.has_failed, hasFailedOrIsUnpowered,
    ElectricalBus.output, Contactor.toggle_state,
    Contactor.output_eq, firstPowered, orPowered, nominalAlternating,
    Current.is_powered, Current.is_unpowered, Current.is_none, Current.source]

/-- Witness for C2: a started emergency generator with everything else off
(both AC buses therefore unpowered) feeds the AC ESS BUS and the TR ESS. -/
theorem claim_C2_emergency_path_witness :
    (emergencyStartedCircuit.updateWith (allOffTick 1)).ac_bus_1.output.is_unpowered =
        true ∧
    (emergencyStartedCircuit.updateWith (allOffTick 1)).ac_bus_2.output.is_unpowered =
        true ∧
    (emergencyStartedCircuit.updateWith (allOffTick 1)).ac_ess_bus.output.source =
        PowerSource.emergencyGenerator ∧
    (emergencyStartedCircuit.updateWith (allOffTick 1)).tr_ess.output.source =
        PowerSource.emergencyGenerator :=
  ⟨by decide, by decide,
    (claim_C2_emergency_path emergencyStartedCircuit (allOffTick 1).context
        (allOffTick 1).engine1 (allOffTick 1).engine2 (allOffTick 1).apu
        (allOffTick 1).ext_pwr (allOffTick 1).hydraulic (allOffTick 1).elec_overhead
        (emergencyStartedCircuit.updateWith (allOffTick 1)) rfl (by decide)
        (by decide) rfl rfl rfl rfl).1,
    (claim_C2_emergency_path emergencyStartedCircuit (allOffTick 1).context
        (allOffTick 1).engine1 (allOffTick 1).engine2 (allOffTick 1).apu
        (allOffTick 1).ext_pwr (allOffTick 1).hydraulic (allOffTick 1).elec_overhead
        (emergencyStartedCircuit.updateWith (allOffTick 1)) rfl (by decide)
        (by decide) rfl rfl rfl rfl).2.1⟩

/-- Counterexample for C2 as stated: with an injected AC ESS BUS and TR ESS
failure, both AC buses unpowered, the emergency generator started and blue
pressure present, the AC ESS BUS and TR ESS outputs do not show
`EmergencyGenerator` (they are unpowered), contradicting the claim, which has
no proviso about those failures. -/
theorem claim_C2_counterexample :
    (emergencyFaultedCircuit.updateWith (bothEnginesTick 1)).ac_bus_1.output.is_unpowered =
        true ∧
    (emergencyFaultedCircuit.updateWith (bothEnginesTick 1)).ac_bus_2.output.is_unpowered =
        true ∧
    emergencyFaultedCircuit.emergency_gen.running = true ∧
    (bothEnginesTick 1).hydraulic.is_blue_pressurised = true ∧
    (emergencyFaultedCircuit.updateWith (bothEnginesTick 1)).ac_ess_bus.output.source ≠
        PowerSource.emergencyGenerator ∧
    (emergencyFaultedCircuit.updateWith (bothEnginesTick 1)).tr_ess.output.source ≠
        PowerSource.emergencyGenerator :=
  ⟨by decide, by decide, rfl, rfl, by decide, by decide⟩

/-- Claim C6: for a tick with both engines above the N2 threshold, the default
overhead panel, no APU or external power and both TRs failed, the observable
outputs after update are AC BUS 1 `EngineGenerator(1)`, AC BUS 2
`EngineGenerator(2)`, AC ESS BUS `EngineGenerator(1)`, TR 1 and TR 2
unpowered, TR ESS `EngineGenerator(1)`, and DC BUS 1, DC BUS 2 and DC BAT BUS
unpowered. -/
theorem claim_C6_tr1_tr2_failed_distribution (context : UpdateContext)
    (engine1 engine2 : Engine) (apu : AuxiliaryPowerUnit)
    (ext_pwr : ExternalPowerSource) (hydraulic : A320HydraulicCircuit)
    (s' : A320ElectricalCircuit)
    (h1 : engineN2PowerOutputThreshold < engine1.n2)
    (h2 : engineN2PowerOutputThreshold < engine2.n2)
    (ha : ¬ apuSpeedPowerOutputThreshold < apu.speed)
    (he : ext_pwr.plugged_in = false)
    (hs : s' = trFailedCircuit.update context engine1 engine2 apu ext_pwr
        hydraulic A320ElectricalOverheadPanel.new) :
    s'.ac_bus_1.output.source = PowerSource.engineGenerator 1 ∧
    s'.ac_bus_2.output.source = PowerSource.engineGenerator 2 ∧
    s'.ac_ess_bus.output.source = PowerSource.engineGenerator 1 ∧
    s'.tr_1.output.is_unpowered = true ∧
    s'.tr_2.output.is_unpowered = true ∧
    s'.tr_ess.output.source = PowerSource.engineGenerator 1 ∧
    s'.dc_bus_1.output.is_unpowered = true ∧
    s'.dc_bus_2.output.is_unpowered = true ∧
    s'.dc_bat_bus.output.is_unpowered = true := by
  subst hs
  simp only [trFailedCircuit, A320ElectricalCircuit.update, A320ElectricalCircuit.new,
    A320ElectricalOverheadPanel.new, EngineGenerator.update, EngineGenerator.new,
    ApuGenerator.update, ApuGenerator.new, EmergencyGenerator.update,
    EmergencyGenerator.new, EmergencyGenerator.output, ExternalPowerSource.output,
    A320HydraulicCircuit.is_blue_pressurised, OnOffPushButton.is_on,
    NormalAltnPushButton.is_normal, NormalAltnPushButton.is_altn,
    Contactor.new, ElectricalBus.new, ElectricalBus.fail, ElectricalBus.output,
    ElectricalBus.set_input, TransformerRectifier.new, TransformerRectifier.fail,
    TransformerRectifier.output, TransformerRectifier.set_input,
    TransformerRectifier.has_failed, hasFailedOrIsUnpowered, Battery.new_full,
    Battery.is_full, DelayedTrueLogicGate.new, DelayedTrueLogicGate.update,
    DelayedTrueLogicGate.output, firstPowered, orPowered,
    Contactor.toggle_state, Contactor.set_input_state, Contactor.set_input_input,
    Contactor.toggle_input, Contactor.output_eq, Current.source,
    Current.is_powered, Current.is_unpowered, Current.is_none, nominalAlternating,
    if_pos h1, if_pos h2, if_neg ha, he]
  simp [Current.source]

/-- Witness for C6: the distribution row evaluated with both engines at 58 %
N2, the APU stopped and external power disconnected. -/
theorem claim_C6_tr1_tr2_failed_distribution_witness :
    engineN2PowerOutputThreshold < (58 : ℚ) ∧
    ¬ apuSpeedPowerOutputThreshold < (0 : ℚ) ∧
    (trFailedCircuit.update { delta := 1 } { n2 := 58 } { n2 := 58 } { speed := 0 }
            { plugged_in := false } { blue_pressurised := true }
            A320ElectricalOverheadPanel.new).ac_ess_bus.output.source =
      PowerSource.engineGenerator 1 :=
  ⟨by decide, by decide,
    (claim_C6_tr1_tr2_failed_distribution { delta := 1 } { n2 := 58 } { n2 := 58 }
        { speed := 0 } { plugged_in := false } { blue_pressurised := true } _
        (by decide) (by decide) (by decide) rfl rfl).2.2.1⟩

/-- Claim C10: `A320ElectricalCircuit::update` never reads the overhead BAT 1,
BAT 2, BUS TIE, GALY & CAB and COMMERCIAL pushbuttons: two updates from the
same state and inputs whose panels agree on all remaining buttons produce the
same circuit, hence identical observable outputs. -/
theorem claim_C10_unread_buttons (s : A320ElectricalCircuit)
    (context : UpdateContext) (engine1 engine2 : Engine)
    (apu : AuxiliaryPowerUnit) (ext_pwr : ExternalPowerSource)
    (hydraulic : A320HydraulicCircuit)
    (p q : A320ElectricalOverheadPanel)
    (h1 : p.idg_1 = q.idg_1) (h2 : p.idg_2 = q.idg_2)
    (h3 : p.gen_1 = q.gen_1) (h4 : p.gen_2 = q.gen_2)
    (h5 : p.apu_gen = q.apu_gen) (h6 : p.ac_ess_feed = q.ac_ess_feed)
    (h7 : p.ext_pwr = q.ext_pwr) :
    s.update context engine1 engine2 apu ext_pwr hydraulic p =
      s.update context engine1 engine2 apu ext_pwr hydraulic q := by
  rcases p with ⟨pb1, pb2, pi1, pi2, pg1, pg2, pa, pbt, pfe, pgc, pep, pcm⟩
  rcases q with ⟨qb1, qb2, qi1, qi2, qg1, qg2, qa, qbt, qfe, qgc, qep, qcm⟩
  simp only at h1 h2 h3 h4 h5 h6 h7
  subst h1; subst h2; subst h3; subst h4; subst h5; subst h6; subst h7
  rfl

/-- Claim C9: after every `A320ElectricalCircuit::update`, battery n's
contactor is closed exactly when battery n is not full; a full battery's
charging input is unpowered, and a not-full battery's input equals the
DC BAT BUS output. -/
theorem claim_C9_battery_charging (s : A320ElectricalCircuit)
    (context : UpdateContext) (engine1 engine2 : Engine)
    (apu : AuxiliaryPowerUnit) (ext_pwr : ExternalPowerSource)
    (hydraulic : A320HydraulicCircuit) (panel : A320ElectricalOverheadPanel)
    (s' : A320ElectricalCircuit)
    (hs : s' = s.update context engine1 engine2 apu ext_pwr hydraulic panel) :
    ((s'.battery_1_contactor.state = ContactorState.Closed ↔
        s'.battery_1.is_full = false) ∧
      (s'.battery_1.is_full = true → s'.battery_1.get_input.is_unpowered = true) ∧
      (s'.battery_1.is_full = false →
        s'.battery_1.get_input = s'.dc_bat_bus.output)) ∧
    ((s'.battery_2_contactor.state = ContactorState.Closed ↔
        s'.battery_2.is_full = false) ∧
      (s'.battery_2.is_full = true → s'.battery_2.get_input.is_unpowered = true) ∧
      (s'.battery_2.is_full = false →
        s'.battery_2.get_input = s'.dc_bat_bus.output)) := by
  subst hs
  simp only [A320ElectricalCircuit.update]
  simp only [Battery.is_full, Battery.get_input, Battery.set_input,
    Contactor.toggle_state, Contactor.set_input_state, Contactor.set_input_input,
    Contactor.toggle_input, Contactor.output_eq, firstPowered_singleton]
  constructor
  · cases hb : s.battery_1.full <;> simp [Current.is_unpowered, Current.is_none]
  · cases hb : s.battery_2.full <;> simp [Current.is_unpowered, Current.is_none]

/-- Witness for C9: the contract instantiated on a fresh circuit (battery 1
full) with both engines running. -/
theorem claim_C9_battery_charging_witness :
    ((A320ElectricalCircuit.new.updateWith (bothEnginesTick 1)).battery_1_contactor.state =
          ContactorState.Closed ↔
        (A320ElectricalCircuit.new.updateWith (bothEnginesTick 1)).battery_1.is_full =
          false) ∧
    ((A320ElectricalCircuit.new.updateWith (bothEnginesTick 1)).battery_1.is_full = true →
      (A320ElectricalCircuit.new.updateWith
          (bothEnginesTick 1)).battery_1.get_input.is_unpowered = true) :=
  ⟨(claim_C9_battery_charging A320ElectricalCircuit.new (bothEnginesTick 1).context
      (bothEnginesTick 1).engine1 (bothEnginesTick 1).engine2 (bothEnginesTick 1).apu
      (bothEnginesTick 1).ext_pwr (bothEnginesTick 1).hydraulic
      (bothEnginesTick 1).elec_overhead
      (A320ElectricalCircuit.new.updateWith (bothEnginesTick 1)) rfl).1.1,
    (claim_C9_battery_charging A320ElectricalCircuit.new (bothEnginesTick 1).context
      (bothEnginesTick 1).engine1 (bothEnginesTick 1).engine2 (bothEnginesTick 1).apu
      (bothEnginesTick 1).ext_pwr (bothEnginesTick 1).hydraulic
      (bothEnginesTick 1).elec_overhead
      (A320ElectricalCircuit.new.updateWith (bothEnginesTick 1)) rfl).1.2.1⟩

/-- Witness for C10: toggling BAT 1, BAT 2, BUS TIE, GALY & CAB and COMMERCIAL
off leaves the update of a fresh circuit with both engines running unchanged. -/
theorem claim_C10_unread_buttons_witness :
    A320ElectricalCircuit.new.update { delta := 1 } { n2 := 58.5 } { n2 := 58.5 }
        { speed := 0 } { plugged_in := false } { blue_pressurised := true }
        A320ElectricalOverheadPanel.new =
      A320ElectricalCircuit.new.update { delta := 1 } { n2 := 58.5 } { n2 := 58.5 }
        { speed := 0 } { plugged_in := false } { blue_pressurised := true }
        { A320ElectricalOverheadPanel.new with
            bat_1 := OnOffPushButton.Off
            bat_2 := OnOffPushButton.Off
            bus_tie := OnOffPushButton.Off
            galy_and_cab := OnOffPushButton.Off
            commercial := OnOffPushButton.Off } :=
  claim_C10_unread_buttons A320ElectricalCircuit.new { delta := 1 } { n2 := 58.5 }
    { n2 := 58.5 } { speed := 0 } { plugged_in := false } { blue_pressurised := true }
    A320ElectricalOverheadPanel.new
    { A320ElectricalOverheadPanel.new with
        bat_1 := OnOffPushButton.Off
        bat_2 := OnOffPushButton.Off
        bus_tie := OnOffPushButton.Off
        galy_and_cab := OnOffPushButton.Off
        commercial := OnOffPushButton.Off }
    rfl rfl rfl rfl rfl rfl rfl

end AirbusSys
